import Mathlib

set_option maxHeartbeats 1000000

/-!
Shallow embedding of the session / extraction orchestration core of the
linkedin-profile-scraper repository.

The embedding translates the TypeScript source into executable Lean
definitions:

* `LinkedInProfileScraper` (src/unnamed/part_000) — constructor validation
  (`construct`), `setup`, `createPage`, `close`, `checkIfLoggedIn`, `run`.
* the per-node raw extraction logic of `getVolunteering`
  (src/src/volunteer.ts), `getExperiences` (src/unnamed/part_002) and
  `getSkills` (src/unnamed/part_001).

External effects (the puppeteer browser engine, the network, the DOM) are
modelled by explicit environment records: each network-bound step of the
source receives its outcome (success, or the error the engine raised) from
an environment value, and the model computes the resulting control flow,
the final session state and the trace of externally visible events.
JavaScript dynamic typing is modelled by `JSValue`, JS string falsiness by
`jsOrNullStr`, and `parseInt` by `jsParseInt`.
-/

/-! ## JavaScript value model -/

/-- A JavaScript runtime value, as far as the constructor's dynamic type
checks can distinguish them: string, number, boolean or null. -/
inductive JSValue where
  | str (s : String)
  | num (n : Int)
  | bool (b : Bool)
  | null
deriving Repr, DecidableEq

/-- JS truthiness of a `JSValue` ("" , 0, false and null are falsy). -/
def JSValue.truthy : JSValue → Bool
  | .str s => s != ""
  | .num n => n != 0
  | .bool b => b
  | .null => false

/-- typeof v === "string" -/
def JSValue.isString : JSValue → Bool
  | .str _ => true
  | _ => false

/-- typeof v === "number" -/
def JSValue.isNumber : JSValue → Bool
  | .num _ => true
  | _ => false

/-- typeof v === "boolean" -/
def JSValue.isBoolean : JSValue → Bool
  | .bool _ => true
  | _ => false

/-- Truthiness of a possibly-absent property (absent = undefined = falsy). -/
def jsTruthy : Option JSValue → Bool
  | none => false
  | some v => v.truthy

/-- The JS idiom `x || null` applied to a possibly-absent string: an absent
value or an empty string collapses to null (`none`). -/
def jsOrNullStr : Option String → Option String
  | none => none
  | some s => if s = "" then none else some s

/-- The JS idiom `x || d` for a possibly-absent string with default `d`. -/
def jsOrDefault : Option String → String → String
  | none, d => d
  | some s, d => if s = "" then d else s

/-- JS truthiness of a possibly-null string. -/
def jsTruthyStr : Option String → Bool
  | none => false
  | some s => s != ""

/-- Substring occurrence test over character lists (structurally
recursive, so concrete instances evaluate inside the kernel). -/
def listContains : List Char → List Char → Bool
  | cs, pat =>
    if pat.isPrefixOf cs then true
    else
      match cs with
      | [] => false
      | _ :: rest => listContains rest pat

/-- JS substring containment `s.includes(pat)`. -/
def jsIncludes (s pat : String) : Bool :=
  listContains s.data pat.data

/-- JS `s.endsWith(t)`. -/
def jsEndsWith (s t : String) : Bool :=
  t.data.isSuffixOf s.data

/-- JS `String.prototype.trim` (over the ASCII whitespace the scraped
strings contain), implemented structurally over the character list. -/
def jsTrim (s : String) : String :=
  String.mk ((((s.data.dropWhile Char.isWhitespace).reverse).dropWhile
    Char.isWhitespace).reverse)

/-- JS `String.prototype.toLowerCase` (ASCII), implemented structurally
over the character list. -/
def jsToLower (s : String) : String :=
  String.mk (s.data.map Char.toLower)

/-- Splitting worker for `jsSplit`: the first argument is fuel that
dominates the input length, keeping the recursion structural. -/
def splitFuel : Nat → List Char → List Char → List Char → List (List Char)
  | 0, cs, _, acc => [acc.reverse ++ cs]
  | Nat.succ _, [], _, acc => [acc.reverse]
  | Nat.succ n, c :: rest, sep, acc =>
    if sep.isPrefixOf (c :: rest) then
      acc.reverse :: splitFuel n (List.drop sep.length (c :: rest)) sep []
    else splitFuel n rest sep (c :: acc)

/-- JS `s.split(sep)` for a non-empty separator (the source only splits on
the en dash). -/
def jsSplit (s sep : String) : List String :=
  (splitFuel (s.data.length + 1) s.data sep.data []).map String.mk

/-- A JS number that is either NaN or an integer (the only values
`parseInt` produces). -/
inductive JSNum where
  | nan
  | int (n : Int)
deriving Repr, DecidableEq

/-- Value of a decimal digit character. -/
def digitVal (c : Char) : Nat := c.toNat - '0'.toNat

/-- Hex-digit test for `parseInt`'s 0x prefix handling. -/
def isHexDigit (c : Char) : Bool :=
  c.isDigit || ('a' ≤ c && c ≤ 'f') || ('A' ≤ c && c ≤ 'F')

/-- Value of a hex digit character. -/
def hexDigitVal (c : Char) : Nat :=
  if c.isDigit then digitVal c
  else if 'a' ≤ c && c ≤ 'f' then c.toNat - 'a'.toNat + 10
  else c.toNat - 'A'.toNat + 10

/-- Numeric value of a list of decimal digits. -/
def decValue (cs : List Char) : Nat :=
  cs.foldl (fun a c => a * 10 + digitVal c) 0

/-- Numeric value of a list of hex digits. -/
def hexValue (cs : List Char) : Nat :=
  cs.foldl (fun a c => a * 16 + hexDigitVal c) 0

/-- JavaScript `parseInt(s)` with no radix argument: skip leading
whitespace, read an optional sign, then either a `0x`/`0X` hexadecimal
prefix or the longest decimal-digit prefix; NaN when no digit follows. -/
def jsParseInt (s : String) : JSNum :=
  let t := (jsTrim s).data
  let sgnRest : Int × List Char :=
    match t with
    | '-' :: r => (-1, r)
    | '+' :: r => (1, r)
    | r => (1, r)
  match sgnRest with
  | (sgn, rest) =>
    match rest with
    | '0' :: 'x' :: r =>
      let ds := r.takeWhile isHexDigit
      if ds.isEmpty then JSNum.nan else JSNum.int (sgn * (hexValue ds : Int))
    | '0' :: 'X' :: r =>
      let ds := r.takeWhile isHexDigit
      if ds.isEmpty then JSNum.nan else JSNum.int (sgn * (hexValue ds : Int))
    | r =>
      let ds := r.takeWhile Char.isDigit
      if ds.isEmpty then JSNum.nan else JSNum.int (sgn * (decValue ds : Int))

/-! ## Core state-machine types -/

/-- Error values thrown by the scraper core: plain `Error(msg)` values and
the `SessionExpired` subclass (src/unnamed/part_000 line 424). -/
inductive JSError where
  | error (msg : String)
  | sessionExpired (msg : String)
deriving Repr, DecidableEq

/-- Decidable equality for `Except`, needed to decide concrete statements
about step outcomes. -/
instance {ε α : Type} [DecidableEq ε] [DecidableEq α] : DecidableEq (Except ε α) :=
  fun x y =>
    match x, y with
    | Except.ok a, Except.ok b =>
      if h : a = b then isTrue (h ▸ rfl)
      else isFalse (fun hh => h (Except.ok.inj hh))
    | Except.error a, Except.error b =>
      if h : a = b then isTrue (h ▸ rfl)
      else isFalse (fun hh => h (Except.error.inj hh))
    | Except.ok _, Except.error _ => isFalse (fun hh => Except.noConfusion hh)
    | Except.error _, Except.ok _ => isFalse (fun hh => Except.noConfusion hh)

/-- The external browser process owned by the session: whether it is still
connected (i.e. not yet closed) and its OS-level pid when it has one. -/
structure BrowserProc where
  connected : Bool
  pid : Option Nat
deriving Repr, DecidableEq

/-- The mutable state of a `LinkedInProfileScraper` instance: the
`this.browser` field (src/unnamed/part_000 line 79).  Note that `close`
never resets the field to null — it only closes the underlying process. -/
structure ScraperState where
  browser : Option BrowserProc
deriving Repr, DecidableEq

/-- Fresh instance: `private browser: Browser | null = null`. -/
def initialState : ScraperState := { browser := none }

/-- Which call site a page belongs to. -/
inductive PageKind where
  | loginCheck
  | primary
  | experience
  | education
  | skills
deriving Repr, DecidableEq

/-- Puppeteer `waitUntil` values used by the source. -/
inductive WaitUntil where
  | domcontentloaded
  | networkidle2
deriving Repr, DecidableEq

/-- Options record passed to `page.goto`: wait condition and, when present,
an explicit navigation timeout in milliseconds. -/
structure NavOptions where
  waitUntil : WaitUntil
  timeout : Option Int
deriving Repr, DecidableEq

/-- Externally visible actions of the core against the browser engine and
the OS.  `treeKilled` records that a force-kill of the process tree was
issued (src/unnamed/part_000 line 371). -/
inductive Event where
  | browserLaunched
  | pageCreated (k : PageKind)
  | navigated (k : PageKind) (url : String) (opts : NavOptions)
  | pageClosed (k : PageKind)
  | browserClosed
  | treeKilled (pid : Nat)
deriving Repr, DecidableEq

/-- The validated options record used by the session machine, with the
field types of the `ScraperOptions` interface (src/unnamed/part_000
lines 53-59). -/
structure ScraperOptions where
  sessionCookieValue : String
  keepAlive : Bool
  userAgent : String
  timeout : Int
  headless : Bool
deriving Repr, DecidableEq

/-- Result of an external step: `none` = the awaited promise fulfilled,
`some e` = it rejected with `e`. -/
abbrev StepOutcome := Option JSError

/-! ## Request interception policy (createPage, src lines 242-301) -/

/-- Puppeteer resource types relevant to the interception policy. -/
inductive ResourceType where
  | document
  | stylesheet
  | image
  | media
  | font
  | script
  | texttrack
  | xhr
  | fetch
  | eventsource
  | websocket
  | manifest
  | other
deriving Repr, DecidableEq

/-- Decision taken by the request-interception handler. -/
inductive InterceptDecision where
  | abort
  | cont
deriving Repr, DecidableEq

/-- `blockedResources` (src/unnamed/part_000 lines 242-248). -/
def blockedResources : List ResourceType :=
  [ResourceType.image, ResourceType.media, ResourceType.font,
   ResourceType.texttrack, ResourceType.manifest]

/-- `allowedHostnames` (src/unnamed/part_000 lines 272-277). -/
def allowedHostnames : List String :=
  ["linkedin.com", "www.linkedin.com", "platform.linkedin.com",
   "realtime.www.linkedin.com"]

/-- `blockedUrls` (src/unnamed/part_000 line 279). -/
def blockedUrls : List String :=
  ["https://www.linkedin.com/li/track"]

/-- The request handler installed by `createPage` (src/unnamed/part_000
lines 284-301).  `hostname` is the result of `getHostname(req.url())`; the
`getHostname` helper lives in ./utils which is outside the provided core
sources, so its result is taken as an input (`none` models a null result,
and an empty string is JS-falsy, matching the `hostname &&` guard). -/
def handleRequest (resourceType : ResourceType) (url : String)
    (hostname : Option String) : InterceptDecision :=
  if blockedResources.contains resourceType then InterceptDecision.abort
  else if blockedUrls.contains url then InterceptDecision.abort
  else if jsTruthyStr hostname && !(allowedHostnames.contains (hostname.getD "")) then
    InterceptDecision.abort
  else InterceptDecision.cont

/-- A provisioned page, carrying the request-interception handler that
`createPage` installed on it. -/
structure ProvisionedPage where
  onRequest : ResourceType → String → Option String → InterceptDecision

/-! ## Session shutdown (close, src lines 341-392) -/

/-- browser.connected := false; the `this.browser` field itself is kept
(the source never nulls it). -/
def disconnect (st : ScraperState) : ScraperState :=
  { browser := st.browser.map (fun b => { b with connected := false }) }

/-- State/event effect of a nominal `this.close()` call (no page argument,
all engine promises fulfilled): close the browser gracefully, then, when a
pid is available, force-kill the process tree.  Used for the `close()`
calls inside catch blocks of `setup`, `createPage` and `run`. -/
def closeEffect (st : ScraperState) : ScraperState × List Event :=
  match st.browser with
  | none => (st, [])
  | some b =>
    (disconnect st,
      Event.browserClosed ::
        (match b.pid with
         | some p => [Event.treeKilled p]
         | none => []))

/-- A settlement of the promise returned by `close`: a `resolve()` call, a
`reject(err)` with an Error value, or a `reject(string)` (the tree-kill
callback rejects with a template string, src/unnamed/part_000 line 373). -/
inductive Settle where
  | resolved
  | rejectedErr (e : JSError)
  | rejectedStr (s : String)
deriving Repr, DecidableEq

/-- Outcomes of the external operations `close` performs. -/
structure CloseEnv where
  pageClose : StepOutcome
  browserClose : StepOutcome
  treeKill : Option String
deriving Repr, DecidableEq

/-- The rejection message used by the tree-kill callback
(src/unnamed/part_000 line 374). -/
def killFailedMsg (pid : Nat) : String :=
  "Failed to kill browser process pid: " ++ toString pid

/-- Model of `close(page?)` (src/unnamed/part_000 lines 341-392).  Returns
the list of settlement calls made on the promise in temporal order (the
promise's value is the first of them), together with the resulting state
and event trace.  Key temporal fact encoded here: `treeKill` reports its
result through an asynchronous callback, while the executor continues
synchronously to the trailing `return resolve()`; under the JS event loop
the callback can only run after the current synchronous execution, so its
settlement comes after the trailing `resolve`. -/
def close (hasPage : Bool) (st : ScraperState) (env : CloseEnv) :
    List Settle × ScraperState × List Event :=
  let pagePart : List Settle × List Event :=
    if hasPage then
      match env.pageClose with
      | some e => ([Settle.rejectedErr e], [])
      | none => ([], [Event.pageClosed PageKind.primary])
    else ([], [])
  match pagePart with
  | (ps, pe) =>
    match st.browser with
    | none => (ps ++ [Settle.resolved], st, pe)
    | some b =>
      match env.browserClose with
      | some e =>
        -- browser.close() rejected: caught, reject(err), then the trailing resolve
        (ps ++ [Settle.rejectedErr e, Settle.resolved], st, pe)
      | none =>
        match b.pid with
        | none =>
          (ps ++ [Settle.resolved], disconnect st, pe ++ [Event.browserClosed])
        | some p =>
          let callback : List Settle :=
            match env.treeKill with
            | some _ => [Settle.rejectedStr (killFailedMsg p)]
            | none => [Settle.resolved]
          (ps ++ [Settle.resolved] ++ callback,
           disconnect st,
           pe ++ [Event.browserClosed, Event.treeKilled p])

/-- The value the caller of `close` observes: the first settlement. -/
def closeResult (hasPage : Bool) (st : ScraperState) (env : CloseEnv) : Settle :=
  (close hasPage st env).1.headD Settle.resolved

/-! ## Page provisioning (createPage, src lines 234-335) -/

/-- Modelled engine behaviour: `browser.newPage()` on a browser process
that has been closed rejects with a protocol error. -/
def targetClosedMsg : String := "Protocol error: Target closed."

/-- Model of `createPage` (src/unnamed/part_000 lines 234-335).
`extraFail` is the outcome of the engine calls made while configuring the
page (CDP session, interception, user agent, viewport, cookie); on any
failure the catch block runs a full `this.close()` before re-raising.  On
success the returned page carries `handleRequest` as its interception
handler. -/
def createPage (st : ScraperState) (k : PageKind) (extraFail : StepOutcome) :
    Except JSError ProvisionedPage × ScraperState × List Event :=
  match st.browser with
  | none => (Except.error (JSError.error "Browser not set."), st, [])
  | some b =>
    if b.connected then
      match extraFail with
      | none =>
        (Except.ok { onRequest := handleRequest }, st, [Event.pageCreated k])
      | some e =>
        match closeEffect st with
        | (st1, t1) => (Except.error e, st1, Event.pageCreated k :: t1)
    else
      match closeEffect st with
      | (st1, t1) => (Except.error (JSError.error targetClosedMsg), st1, t1)

/-! ## Login verification (checkIfLoggedIn, src lines 397-426) -/

/-- The login entry point navigated to by `checkIfLoggedIn`. -/
def loginUrl : String := "https://www.linkedin.com/login"

/-- Navigation options of the login-check `goto`
(src/unnamed/part_000 lines 407-410). -/
def loginNavOptions (opts : ScraperOptions) : NavOptions :=
  { waitUntil := WaitUntil.domcontentloaded, timeout := some opts.timeout }

/-- The `SessionExpired` message (src/unnamed/part_000 lines 421-422). -/
def sessionExpiredMsg : String :=
  "Bad news, we are not logged in! Your session seems to be expired. Use your browser to login again with your LinkedIn credentials and extract the \"li_at\" cookie value for the \"sessionCookieValue\" option."

/-- Outcomes of the external operations `checkIfLoggedIn` performs:
page provisioning, the navigation, and the final URL the page landed on. -/
structure LoginCheckEnv where
  pageOk : StepOutcome
  nav : StepOutcome
  finalUrl : String
deriving Repr, DecidableEq

/-- Model of `checkIfLoggedIn` (src/unnamed/part_000 lines 397-426): open
a page, navigate to the login entry point with the configured timeout,
read the final URL, close the page, then fail with `SessionExpired` iff
the final URL still ends in "/login". -/
def checkIfLoggedIn (st : ScraperState) (opts : ScraperOptions)
    (env : LoginCheckEnv) : Except JSError Unit × ScraperState × List Event :=
  match createPage st PageKind.loginCheck env.pageOk with
  | (Except.error e, st1, t1) => (Except.error e, st1, t1)
  | (Except.ok _, st1, t1) =>
    let t2 := t1 ++ [Event.navigated PageKind.loginCheck loginUrl (loginNavOptions opts)]
    match env.nav with
    | some e => (Except.error e, st1, t2)
    | none =>
      let isLoggedIn := !(jsEndsWith env.finalUrl "/login")
      let t3 := t2 ++ [Event.pageClosed PageKind.loginCheck]
      if isLoggedIn then (Except.ok (), st1, t3)
      else (Except.error (JSError.sessionExpired sessionExpiredMsg), st1, t3)

/-! ## Setup (setup, src lines 142-229) -/

/-- Outcomes of the external operations `setup` performs: the puppeteer
launch, the pid of the launched process, and the login-check steps. -/
structure SetupEnv where
  launch : StepOutcome
  pid : Option Nat
  login : LoginCheckEnv
deriving Repr, DecidableEq

/-- Model of `setup` (src/unnamed/part_000 lines 142-229): launch the
browser, then verify the login session; on any failure, run `this.close()`
and re-raise. -/
def setup (st : ScraperState) (opts : ScraperOptions) (env : SetupEnv) :
    Except JSError Unit × ScraperState × List Event :=
  match env.launch with
  | some e =>
    match closeEffect st with
    | (st1, t1) => (Except.error e, st1, t1)
  | none =>
    let st1 : ScraperState := { browser := some { connected := true, pid := env.pid } }
    match checkIfLoggedIn st1 opts env.login with
    | (Except.ok _, st2, t2) => (Except.ok (), st2, Event.browserLaunched :: t2)
    | (Except.error e, st2, t2) =>
      match closeEffect st2 with
      | (st3, t3) => (Except.error e, st3, Event.browserLaunched :: (t2 ++ t3))

/-! ## Detail-page extraction tasks (getExperiences / getEducation / getSkills) -/

/-- Navigation options of the three detail-page `goto` calls
(src/unnamed/part_002 lines 38-40, src/unnamed/part_001 lines 107-109 and
195-197): `waitUntil: "networkidle2"` and no timeout option. -/
def detailNavOptions : NavOptions :=
  { waitUntil := WaitUntil.networkidle2, timeout := none }

/-- Outcomes of the external operations of one detail-page task: page
provisioning, the navigation, and the in-page extraction returning a list
of raw entities of type `α`. -/
structure TaskEnv (α : Type) where
  pageOk : StepOutcome
  nav : StepOutcome
  extract : Except JSError (List α)
deriving Repr, DecidableEq

/-- True when the task's own steps make it fail. -/
def TaskEnv.failsB {α : Type} (e : TaskEnv α) : Bool :=
  e.pageOk.isSome || e.nav.isSome ||
    (match e.extract with
     | Except.error _ => true
     | Except.ok _ => false)

/-- One detail-page sub-run, the common shape of `getExperiences`
(src/unnamed/part_002 lines 32-108), `getEducation` (src/unnamed/part_001
lines 101-161) and `getSkills` (src/unnamed/part_001 lines 189-223):
provision a page via the scraper's `createPage`, navigate to
`profileUrl + subPath` with `networkidle2` and no timeout, extract, and
close the page.  The functions have no catch: a navigation or extraction
failure propagates and leaves the page open; a provisioning failure has
already torn the session down inside `createPage`. -/
def runDetailTask {α : Type} (k : PageKind) (subPath : String)
    (profileUrl : String) (st : ScraperState) (te : TaskEnv α) :
    Except JSError (List α) × ScraperState × List Event :=
  match createPage st k te.pageOk with
  | (Except.error e, st1, t1) => (Except.error e, st1, t1)
  | (Except.ok _, st1, t1) =>
    let t2 := t1 ++ [Event.navigated k (profileUrl ++ subPath) detailNavOptions]
    match te.nav with
    | some e => (Except.error e, st1, t2)
    | none =>
      match te.extract with
      | Except.error e => (Except.error e, st1, t2)
      | Except.ok xs => (Except.ok xs, st1, t2 ++ [Event.pageClosed k])

/-- Session state already torn down? -/
def isTerminatedB (st : ScraperState) : Bool :=
  match st.browser with
  | some b => !b.connected
  | none => false

/-- Session handle ready for extraction runs? -/
def isReadyB (st : ScraperState) : Bool :=
  match st.browser with
  | some b => b.connected
  | none => false

/-- The `Promise.all` fan-out of `run` (src/unnamed/part_000 lines
482-486): the three tasks are issued concurrently, all from the same
session state; each performs its own navigation regardless of its
siblings' outcomes.  The combined promise is fulfilled only when all three
fulfil; otherwise it rejects with the error of a failing task (completion
order is unspecified in the source, so the model reports the first failing
task in the fixed experience/education/skills order as representative).
The only shared-state write a task can make is the session teardown inside
a failing `createPage`, which the merged state reflects. -/
def fanOut {ε δ σ : Type} (st : ScraperState) (profileUrl : String)
    (e1 : TaskEnv ε) (e2 : TaskEnv δ) (e3 : TaskEnv σ) :
    Except JSError (List ε × List δ × List σ) × ScraperState × List Event :=
  match runDetailTask PageKind.experience "/details/experience" profileUrl st e1,
        runDetailTask PageKind.education "/details/education" profileUrl st e2,
        runDetailTask PageKind.skills "/details/skills" profileUrl st e3 with
  | (r1, s1, t1), (r2, s2, t2), (r3, s3, t3) =>
    let combined : Except JSError (List ε × List δ × List σ) :=
      match r1 with
      | Except.error e => Except.error e
      | Except.ok xs1 =>
        match r2 with
        | Except.error e => Except.error e
        | Except.ok xs2 =>
          match r3 with
          | Except.error e => Except.error e
          | Except.ok xs3 => Except.ok (xs1, xs2, xs3)
    (combined,
     if isTerminatedB s1 || isTerminatedB s2 || isTerminatedB s3 then disconnect st
     else st,
     t1 ++ t2 ++ t3)

/-! ## The run orchestration (run, src lines 431-529) -/

/-- The Result aggregate (src/unnamed/part_000 lines 61-67).  The payload
types are parameters: the per-field extractors are external collaborators
of the core and their outputs are opaque to the orchestration logic. -/
structure RunResult (π ε δ ν σ : Type) where
  profile : π
  experiences : List ε
  education : List δ
  volunteering : List ν
  skills : List σ
deriving Repr, DecidableEq

/-- Navigation options of the primary profile-page `goto`
(src/unnamed/part_000 lines 458-463). -/
def primaryNavOptions (opts : ScraperOptions) : NavOptions :=
  { waitUntil := WaitUntil.domcontentloaded, timeout := some opts.timeout }

/-- Outcomes of the external operations of one `run` call. -/
structure RunEnv (π ε δ ν σ : Type) where
  primaryPageOk : StepOutcome
  primaryNav : StepOutcome
  scroll : StepOutcome
  profile : Except JSError π
  volunteering : Except JSError (List ν)
  expTask : TaskEnv ε
  eduTask : TaskEnv δ
  skillsTask : TaskEnv σ
deriving Repr, DecidableEq

/-- All external steps of the run fulfil. -/
def RunEnv.allOkB {π ε δ ν σ : Type} (env : RunEnv π ε δ ν σ) : Bool :=
  env.primaryPageOk.isNone && env.primaryNav.isNone && env.scroll.isNone &&
    (match env.profile with | Except.ok _ => true | _ => false) &&
    (match env.volunteering with | Except.ok _ => true | _ => false) &&
    !env.expTask.failsB && !env.eduTask.failsB && !env.skillsTask.failsB

/-- The try-block of `run` (src/unnamed/part_000 lines 448-519): provision
the primary page, navigate to the profile with the configured timeout,
auto-scroll, extract profile and volunteering from the open page, fan out
the three detail tasks, then either terminate the whole session
(`keepAlive` false: `this.close(page)`) or close only the primary page
(`keepAlive` true), and return the aggregate. -/
def runBody {π ε δ ν σ : Type} (st : ScraperState) (opts : ScraperOptions)
    (profileUrl : String) (env : RunEnv π ε δ ν σ) :
    Except JSError (RunResult π ε δ ν σ) × ScraperState × List Event :=
  match createPage st PageKind.primary env.primaryPageOk with
  | (Except.error e, st1, t1) => (Except.error e, st1, t1)
  | (Except.ok _, st1, t1) =>
    let t2 := t1 ++ [Event.navigated PageKind.primary profileUrl (primaryNavOptions opts)]
    match env.primaryNav with
    | some e => (Except.error e, st1, t2)
    | none =>
      match env.scroll with
      | some e => (Except.error e, st1, t2)
      | none =>
        match env.profile with
        | Except.error e => (Except.error e, st1, t2)
        | Except.ok prof =>
          match env.volunteering with
          | Except.error e => (Except.error e, st1, t2)
          | Except.ok vol =>
            match fanOut st1 profileUrl env.expTask env.eduTask env.skillsTask with
            | (Except.error e, st2, t3) => (Except.error e, st2, t2 ++ t3)
            | (Except.ok (exps, edus, skills), st2, t3) =>
              let res : RunResult π ε δ ν σ :=
                { profile := prof, experiences := exps, education := edus,
                  volunteering := vol, skills := skills }
              if opts.keepAlive then
                (Except.ok res, st2, t2 ++ t3 ++ [Event.pageClosed PageKind.primary])
              else
                match closeEffect st2 with
                | (st3, t4) =>
                  (Except.ok res, st3,
                   t2 ++ t3 ++ [Event.pageClosed PageKind.primary] ++ t4)

/-- Model of `run` (src/unnamed/part_000 lines 431-529): the three guard
checks (`this.browser` set, non-empty `profileUrl`, URL contains
"linkedin.com/"), then the try-block; on any error from the try-block the
catch runs `this.close()` and re-raises.  The `close()` calls inside the
model take their nominal effect (their own promise fulfils); `close`'s
full settlement behaviour is modelled separately above. -/
def run {π ε δ ν σ : Type} (st : ScraperState) (opts : ScraperOptions)
    (profileUrl : String) (env : RunEnv π ε δ ν σ) :
    Except JSError (RunResult π ε δ ν σ) × ScraperState × List Event :=
  match st.browser with
  | none =>
    (Except.error (JSError.error "Browser is not set. Please run the setup method first."),
     st, [])
  | some _ =>
    if profileUrl = "" then
      (Except.error (JSError.error "No profileUrl given."), st, [])
    else if !(jsIncludes profileUrl "linkedin.com/") then
      (Except.error (JSError.error "The given URL to scrape is not a linkedin.com url."),
       st, [])
    else
      match runBody st opts profileUrl env with
      | (Except.ok res, st1, t1) => (Except.ok res, st1, t1)
      | (Except.error e, st1, t1) =>
        match closeEffect st1 with
        | (st2, t2) => (Except.error e, st2, t1 ++ t2)

/-! ## Constructor validation (constructor, src lines 69-137) -/

/-- The raw options object passed by the user; each property either absent
(`none`) or an arbitrary JS value.  Mirrors `ScraperUserDefinedOptions`
(src/unnamed/part_000 lines 12-51) as seen by the dynamic checks. -/
structure ScraperUserDefinedOptions where
  sessionCookieValue : Option JSValue := none
  keepAlive : Option JSValue := none
  userAgent : Option JSValue := none
  timeout : Option JSValue := none
  headless : Option JSValue := none
deriving Repr, DecidableEq

/-- The scraper's options object as a JS record (field values are JS
values, as produced by `Object.assign`). -/
structure ScraperOptionsJS where
  sessionCookieValue : JSValue
  keepAlive : JSValue
  userAgent : JSValue
  timeout : JSValue
  headless : JSValue
deriving Repr, DecidableEq

/-- The fixed default user agent (src/unnamed/part_000 lines 74-75). -/
def defaultUserAgent : String :=
  "Mozilla/5.0 (Windows NT 10.0; Win64; x64) AppleWebKit/537.36 (KHTML, like Gecko) Chrome/69.0.3497.100 Safari/537.36"

/-- The default options record (src/unnamed/part_000 lines 70-77). -/
def defaultOptions : ScraperOptionsJS :=
  { sessionCookieValue := JSValue.str ""
  , keepAlive := JSValue.bool false
  , timeout := JSValue.num 10000
  , userAgent := JSValue.str defaultUserAgent
  , headless := JSValue.bool true }

/-- `Object.assign(defaults, userDefinedOptions)`: every property present
on the user object overwrites the default. -/
def objectAssign (base : ScraperOptionsJS) (u : ScraperUserDefinedOptions) :
    ScraperOptionsJS :=
  { sessionCookieValue := u.sessionCookieValue.getD base.sessionCookieValue
  , keepAlive := u.keepAlive.getD base.keepAlive
  , userAgent := u.userAgent.getD base.userAgent
  , timeout := u.timeout.getD base.timeout
  , headless := u.headless.getD base.headless }

/-- Error message prefix of the constructor (src/unnamed/part_000 line 83). -/
def ctorErrorPrefix : String := "Error during setup."

def cookieRequiredMsg : String :=
  ctorErrorPrefix ++ " Option \"sessionCookieValue\" is required."

def cookieStringMsg : String :=
  ctorErrorPrefix ++ " Option \"sessionCookieValue\" needs to be a string."

def userAgentStringMsg : String :=
  ctorErrorPrefix ++ " Option \"userAgent\" needs to be a string."

def keepAliveBooleanMsg : String :=
  ctorErrorPrefix ++ " Option \"keepAlive\" needs to be a boolean."

def timeoutNumberMsg : String :=
  ctorErrorPrefix ++ " Option \"timeout\" needs to be a number."

def headlessBooleanMsg : String :=
  ctorErrorPrefix ++ " Option \"headless\" needs to be a boolean."

/-- Check 1 (src line 85): `!userDefinedOptions.sessionCookieValue` — the
token property is present and truthy. -/
def cookiePresenceOk (u : ScraperUserDefinedOptions) : Bool :=
  jsTruthy u.sessionCookieValue

/-- Check 2 (src lines 91-94): token truthy but `typeof` is not string. -/
def cookieTypeBad (u : ScraperUserDefinedOptions) : Bool :=
  jsTruthy u.sessionCookieValue &&
    !((u.sessionCookieValue.getD JSValue.null).isString)

/-- Check 3 (src lines 100-103): userAgent truthy but not a string. -/
def userAgentBad (u : ScraperUserDefinedOptions) : Bool :=
  jsTruthy u.userAgent && !((u.userAgent.getD JSValue.null).isString)

/-- Check 4 (src lines 109-112): keepAlive defined but not a boolean. -/
def keepAliveBad (u : ScraperUserDefinedOptions) : Bool :=
  u.keepAlive.isSome && !((u.keepAlive.getD JSValue.null).isBoolean)

/-- Check 5 (src lines 118-121): timeout defined but not a number. -/
def timeoutBad (u : ScraperUserDefinedOptions) : Bool :=
  u.timeout.isSome && !((u.timeout.getD JSValue.null).isNumber)

/-- Check 6 (src lines 125-128): headless defined but not a boolean. -/
def headlessBad (u : ScraperUserDefinedOptions) : Bool :=
  u.headless.isSome && !((u.headless.getD JSValue.null).isBoolean)

/-- Model of the `LinkedInProfileScraper` constructor (src/unnamed/part_000
lines 81-137): the six dynamic checks in source order, then
`Object.assign` of the user options over the defaults.  The constructor
performs no browser interaction, so its event trace is always empty. -/
def construct (u : ScraperUserDefinedOptions) :
    Except String ScraperOptionsJS × List Event :=
  if !(cookiePresenceOk u) then
    (Except.error cookieRequiredMsg, [])
  else if cookieTypeBad u then
    (Except.error cookieStringMsg, [])
  else if userAgentBad u then
    (Except.error userAgentStringMsg, [])
  else if keepAliveBad u then
    (Except.error keepAliveBooleanMsg, [])
  else if timeoutBad u then
    (Except.error timeoutNumberMsg, [])
  else if headlessBad u then
    (Except.error headlessBooleanMsg, [])
  else
    (Except.ok (objectAssign defaultOptions u), [])

/-! ## Raw extraction of volunteering / experience entries
(src/src/volunteer.ts lines 41-52, src/unnamed/part_002 lines 73-85) -/

/-- The date-range fields shared by the raw volunteering and experience
extraction: split the range text on the en dash, trim, detect an ongoing
period, and default the end date to the literal "Present". -/
structure RawDateRange where
  startDate : Option String
  endDate : Option String
  endDateIsPresent : Bool
deriving Repr, DecidableEq

/-- The date-range logic of `getVolunteering` (src/src/volunteer.ts lines
44-52) and `getExperiences` (src/unnamed/part_002 lines 76-85), which are
textually identical.  The argument is `dateRangeElement?.textContent`;
the leading `|| null` of the source is applied here.  JS `split` on the
en dash is `jsSplit`; `[i]` past the end is undefined, collapsed with
`|| null`; `trim`/`toLowerCase` are `jsTrim`/`jsToLower` (the source
strings are ASCII at the points compared). -/
def parseDateRange (dateRangeTextRaw : Option String) : RawDateRange :=
  let dateRangeText := jsOrNullStr dateRangeTextRaw
  let startDatePart :=
    match dateRangeText with
    | none => none
    | some t => jsOrNullStr ((jsSplit t "–")[0]?)
  let startDate :=
    match startDatePart with
    | none => none
    | some s => jsOrNullStr (some (jsTrim s))
  let endDatePart :=
    match dateRangeText with
    | none => none
    | some t => jsOrNullStr ((jsSplit t "–")[1]?)
  let endDateIsPresent :=
    match endDatePart with
    | none => false
    | some s => jsToLower (jsTrim s) = "present"
  let endDate :=
    match endDatePart with
    | none => some "Present"
    | some s => if s != "" && !endDateIsPresent then some (jsTrim s) else some "Present"
  { startDate := startDate, endDate := endDate, endDateIsPresent := endDateIsPresent }

/-- Observable inputs of one volunteering DOM node: the `textContent` of
each element the extractor queries (`none` models a missing element or a
null `textContent`, i.e. the value of `element?.textContent` before the
`|| null`). -/
structure VolunteerNodeInput where
  titleText : Option String
  companyText : Option String
  dateRangeText : Option String
  descriptionText : Option String
deriving Repr, DecidableEq

/-- `RawVolunteering` (src/src/volunteer.ts lines 4-11). -/
structure RawVolunteering where
  title : Option String
  company : Option String
  startDate : Option String
  endDate : Option String
  endDateIsPresent : Bool
  description : Option String
deriving Repr, DecidableEq

/-- Per-node body of the `getVolunteering` `$$eval` loop
(src/src/volunteer.ts lines 32-66). -/
def getVolunteeringRawEntry (n : VolunteerNodeInput) : RawVolunteering :=
  let d := parseDateRange n.dateRangeText
  { title := jsOrNullStr n.titleText
  , company := jsOrNullStr n.companyText
  , startDate := d.startDate
  , endDate := d.endDate
  , endDateIsPresent := d.endDateIsPresent
  , description := jsOrNullStr n.descriptionText }

/-- Observable inputs of one experience DOM node.  `companyText` is the
`textContent` of the company element after the source's span-removal
cleanup (src/unnamed/part_002 lines 57-66). -/
structure ExperienceNodeInput where
  titleText : Option String
  employmentTypeText : Option String
  companyText : Option String
  descriptionText : Option String
  dateRangeText : Option String
  locationText : Option String
deriving Repr, DecidableEq

/-- `RawExperience` (src/unnamed/part_002 lines 9-18). -/
structure RawExperience where
  title : Option String
  company : Option String
  employmentType : Option String
  location : Option String
  startDate : Option String
  endDate : Option String
  endDateIsPresent : Bool
  description : Option String
deriving Repr, DecidableEq

/-- Per-node body of the `getExperiences` `$$eval` loop
(src/unnamed/part_002 lines 48-101). -/
def getExperiencesRawEntry (n : ExperienceNodeInput) : RawExperience :=
  let d := parseDateRange n.dateRangeText
  { title := jsOrNullStr n.titleText
  , company := jsOrNullStr n.companyText
  , employmentType := jsOrNullStr n.employmentTypeText
  , location := jsOrNullStr n.locationText
  , startDate := d.startDate
  , endDate := d.endDate
  , endDateIsPresent := d.endDateIsPresent
  , description := jsOrNullStr n.descriptionText }

/-! ## Skill extraction (getSkills, src/unnamed/part_001 lines 189-223) -/

/-- `Skill` (src/unnamed/part_001 lines 184-187): `skillName` may be null
(or undefined, also modelled by `none`); `endorsementCount` is typed
`number | null` in the source, and the number may be NaN. -/
structure Skill where
  skillName : Option String
  endorsementCount : Option JSNum
deriving Repr, DecidableEq

/-- Observable inputs of one skill DOM node: whether each queried element
exists, and its `textContent` when it does (`none` = null text). -/
structure SkillNodeInput where
  hasNameElement : Bool
  nameText : Option String
  hasEndorsementElement : Bool
  endorsementText : Option String
deriving Repr, DecidableEq

/-- Per-node body of the `getSkills` `$$eval` map (src/unnamed/part_001
lines 205-219): the name is the trimmed `textContent` when the name
element exists, and the endorsement count is `parseInt` of the trimmed
`textContent` with "0" substituted for an empty (or null) text, or the
number 0 when the endorsement element is missing. -/
def getSkillsEntry (n : SkillNodeInput) : Skill :=
  { skillName :=
      if n.hasNameElement then n.nameText.map jsTrim else none
  , endorsementCount :=
      some (if n.hasEndorsementElement then
              jsParseInt (jsOrDefault (n.endorsementText.map jsTrim) "0")
            else JSNum.int 0) }

/-! ## Auxiliary predicates and example fixtures used by the verification -/

/-- The promise rejected. -/
def exceptIsError {ε α : Type} : Except ε α → Bool
  | Except.error _ => true
  | Except.ok _ => false

/-- Is this event a navigation of page kind `k`? -/
def isNavOf (k : PageKind) : Event → Bool
  | Event.navigated k2 _ _ => k2 == k
  | _ => false

/-- Number of navigations of page kind `k` in a trace. -/
def navCount (k : PageKind) (t : List Event) : Nat :=
  t.countP (isNavOf k)

/-- The trace invariant of `run`: it never launches a browser, never
navigates the login-check page, its primary navigation goes to the profile
URL with the configured timeout, and each detail navigation goes to the
corresponding sub-path with `networkidle2` and no timeout. -/
def runTraceOkB (profileUrl : String) (opts : ScraperOptions) : Event → Bool
  | Event.browserLaunched => false
  | Event.navigated k u o =>
    match k with
    | PageKind.loginCheck => false
    | PageKind.primary => u == profileUrl && o == primaryNavOptions opts
    | PageKind.experience =>
      u == profileUrl ++ "/details/experience" && o == detailNavOptions
    | PageKind.education =>
      u == profileUrl ++ "/details/education" && o == detailNavOptions
    | PageKind.skills =>
      u == profileUrl ++ "/details/skills" && o == detailNavOptions
  | _ => true

/-- The trace invariant of `checkIfLoggedIn`: no launch, and its only
navigation is the login entry point with the configured timeout. -/
def loginTraceOkB (opts : ScraperOptions) : Event → Bool
  | Event.browserLaunched => false
  | Event.navigated k u o =>
    k == PageKind.loginCheck && u == loginUrl && o == loginNavOptions opts
  | _ => true

/-- Example validated options (timeout 10000, keepAlive on). -/
def exampleOptions : ScraperOptions :=
  { sessionCookieValue := "cookie-value", keepAlive := true,
    userAgent := defaultUserAgent, timeout := 10000, headless := true }

/-- Example profile URL. -/
def exampleUrl : String := "https://www.linkedin.com/in/someone"

/-- Example ready session state (launched browser with pid 7). -/
def exampleReadyState : ScraperState :=
  { browser := some { connected := true, pid := some 7 } }

/-- Example all-fulfilling detail-task environment over a trivial payload. -/
def exampleTask : TaskEnv Unit :=
  { pageOk := none, nav := none, extract := Except.ok [] }

/-- Example all-fulfilling run environment over trivial payloads. -/
def exampleRunEnv : RunEnv Unit Unit Unit Unit Unit :=
  { primaryPageOk := none, primaryNav := none, scroll := none,
    profile := Except.ok (), volunteering := Except.ok [],
    expTask := exampleTask, eduTask := exampleTask, skillsTask := exampleTask }

/-- Example setup environment whose login verification fails: the final
URL is still the login URL. -/
def exampleFailedVerifySetupEnv : SetupEnv :=
  { launch := none, pid := some 7,
    login := { pageOk := none, nav := none, finalUrl := loginUrl } }

/-! ## Helper lemmas about traces, states and outcomes -/

theorem closeEffect_all (st : ScraperState) (p : Event → Bool)
    (h1 : p Event.browserClosed = true) (h2 : ∀ q, p (Event.treeKilled q) = true) :
    (closeEffect st).2.all p = true := by
  rcases st with ⟨_ | ⟨bc, bp⟩⟩
  · simp [closeEffect]
  · rcases bp with _ | q <;> simp [closeEffect, h1, h2]

theorem createPage_all (st : ScraperState) (k : PageKind) (f : StepOutcome)
    (p : Event → Bool) (h0 : p (Event.pageCreated k) = true)
    (h1 : p Event.browserClosed = true) (h2 : ∀ q, p (Event.treeKilled q) = true) :
    (createPage st k f).2.2.all p = true := by
  rcases st with ⟨_ | ⟨bc, bp⟩⟩
  · simp [createPage]
  · have hc := closeEffect_all ⟨some ⟨bc, bp⟩⟩ p h1 h2
    rcases bc <;> rcases f with _ | e <;>
      simp_all [createPage, closeEffect]

theorem runDetailTask_all {α : Type} (k : PageKind) (sp : String) (url : String)
    (st : ScraperState) (te : TaskEnv α) (p : Event → Bool)
    (h0 : p (Event.pageCreated k) = true)
    (hn : p (Event.navigated k (url ++ sp) detailNavOptions) = true)
    (hc : p (Event.pageClosed k) = true)
    (h1 : p Event.browserClosed = true) (h2 : ∀ q, p (Event.treeKilled q) = true) :
    (runDetailTask k sp url st te).2.2.all p = true := by
  have hcp := createPage_all st k te.pageOk p h0 h1 h2
  rcases hx : createPage st k te.pageOk with ⟨r, st1, t1⟩
  rw [hx] at hcp
  rcases r with e | pg
  · simp [runDetailTask, hx, hcp]
  · rcases hnav : te.nav with _ | e
    · rcases hex : te.extract with e | xs <;>
        simp_all [runDetailTask, hx, hnav, hex, List.all_append]
    · simp_all [runDetailTask, hx, hnav, List.all_append]

theorem fanOut_all {ε δ σ : Type} (st : ScraperState) (url : String)
    (e1 : TaskEnv ε) (e2 : TaskEnv δ) (e3 : TaskEnv σ) (p : Event → Bool)
    (hx0 : p (Event.pageCreated PageKind.experience) = true)
    (hxn : p (Event.navigated PageKind.experience (url ++ "/details/experience") detailNavOptions) = true)
    (hxc : p (Event.pageClosed PageKind.experience) = true)
    (hd0 : p (Event.pageCreated PageKind.education) = true)
    (hdn : p (Event.navigated PageKind.education (url ++ "/details/education") detailNavOptions) = true)
    (hdc : p (Event.pageClosed PageKind.education) = true)
    (hs0 : p (Event.pageCreated PageKind.skills) = true)
    (hsn : p (Event.navigated PageKind.skills (url ++ "/details/skills") detailNavOptions) = true)
    (hsc : p (Event.pageClosed PageKind.skills) = true)
    (h1 : p Event.browserClosed = true) (h2 : ∀ q, p (Event.treeKilled q) = true) :
    (fanOut st url e1 e2 e3).2.2.all p = true := by
  have ha := runDetailTask_all PageKind.experience "/details/experience" url st e1 p hx0 hxn hxc h1 h2
  have hb := runDetailTask_all PageKind.education "/details/education" url st e2 p hd0 hdn hdc h1 h2
  have hcc := runDetailTask_all PageKind.skills "/details/skills" url st e3 p hs0 hsn hsc h1 h2
  rcases h1x : runDetailTask PageKind.experience "/details/experience" url st e1 with ⟨r1, s1, t1⟩
  rcases h2x : runDetailTask PageKind.education "/details/education" url st e2 with ⟨r2, s2, t2⟩
  rcases h3x : runDetailTask PageKind.skills "/details/skills" url st e3 with ⟨r3, s3, t3⟩
  rw [h1x] at ha; rw [h2x] at hb; rw [h3x] at hcc
  rcases r1 with e | x1 <;> rcases r2 with e | x2 <;> rcases r3 with e | x3 <;>
    simp_all [fanOut, h1x, h2x, h3x, List.all_append]

theorem runBody_all {π ε δ ν σ : Type} (st : ScraperState) (opts : ScraperOptions)
    (url : String) (env : RunEnv π ε δ ν σ) (p : Event → Bool)
    (hp0 : p (Event.pageCreated PageKind.primary) = true)
    (hpn : p (Event.navigated PageKind.primary url (primaryNavOptions opts)) = true)
    (hpc : p (Event.pageClosed PageKind.primary) = true)
    (hx0 : p (Event.pageCreated PageKind.experience) = true)
    (hxn : p (Event.navigated PageKind.experience (url ++ "/details/experience") detailNavOptions) = true)
    (hxc : p (Event.pageClosed PageKind.experience) = true)
    (hd0 : p (Event.pageCreated PageKind.education) = true)
    (hdn : p (Event.navigated PageKind.education (url ++ "/details/education") detailNavOptions) = true)
    (hdc : p (Event.pageClosed PageKind.education) = true)
    (hs0 : p (Event.pageCreated PageKind.skills) = true)
    (hsn : p (Event.navigated PageKind.skills (url ++ "/details/skills") detailNavOptions) = true)
    (hsc : p (Event.pageClosed PageKind.skills) = true)
    (h1 : p Event.browserClosed = true) (h2 : ∀ q, p (Event.treeKilled q) = true) :
    (runBody st opts url env).2.2.all p = true := by
  have hcp := createPage_all st PageKind.primary env.primaryPageOk p hp0 h1 h2
  rcases hx : createPage st PageKind.primary env.primaryPageOk with ⟨r, st1, t1⟩
  rw [hx] at hcp
  rcases r with e | pg
  · simp [runBody, hx, hcp]
  · have hfo := fanOut_all st1 url env.expTask env.eduTask env.skillsTask p
      hx0 hxn hxc hd0 hdn hdc hs0 hsn hsc h1 h2
    rcases hfx : fanOut st1 url env.expTask env.eduTask env.skillsTask with ⟨rf, st2, t3⟩
    rw [hfx] at hfo
    have hce := closeEffect_all st2 p h1 h2
    rcases hcex : closeEffect st2 with ⟨st3, t4⟩
    rw [hcex] at hce
    rcases hnav : env.primaryNav with _ | e
    · rcases hsc2 : env.scroll with _ | e
      · rcases hpr : env.profile with e | prof
        · simp_all [runBody, hx, hnav, hsc2, hpr, List.all_append]
        · rcases hvo : env.volunteering with e | vol
          · simp_all [runBody, hx, hnav, hsc2, hpr, hvo, List.all_append]
          · rcases rf with e | res
            · simp_all [runBody, hx, hnav, hsc2, hpr, hvo, hfx, List.all_append]
            · rcases res with ⟨xs1, xs2, xs3⟩
              rcases hka : opts.keepAlive <;>
                simp_all [runBody, hx, hnav, hsc2, hpr, hvo, hfx, hcex, hka,
                  List.all_append]
      · simp_all [runBody, hx, hnav, hsc2, List.all_append]
    · simp_all [runBody, hx, hnav, List.all_append]

theorem run_all {π ε δ ν σ : Type} (st : ScraperState) (opts : ScraperOptions)
    (url : String) (env : RunEnv π ε δ ν σ) (p : Event → Bool)
    (hp0 : p (Event.pageCreated PageKind.primary) = true)
    (hpn : p (Event.navigated PageKind.primary url (primaryNavOptions opts)) = true)
    (hpc : p (Event.pageClosed PageKind.primary) = true)
    (hx0 : p (Event.pageCreated PageKind.experience) = true)
    (hxn : p (Event.navigated PageKind.experience (url ++ "/details/experience") detailNavOptions) = true)
    (hxc : p (Event.pageClosed PageKind.experience) = true)
    (hd0 : p (Event.pageCreated PageKind.education) = true)
    (hdn : p (Event.navigated PageKind.education (url ++ "/details/education") detailNavOptions) = true)
    (hdc : p (Event.pageClosed PageKind.education) = true)
    (hs0 : p (Event.pageCreated PageKind.skills) = true)
    (hsn : p (Event.navigated PageKind.skills (url ++ "/details/skills") detailNavOptions) = true)
    (hsc : p (Event.pageClosed PageKind.skills) = true)
    (h1 : p Event.browserClosed = true) (h2 : ∀ q, p (Event.treeKilled q) = true) :
    (run st opts url env).2.2.all p = true := by
  have hbd := runBody_all st opts url env p hp0 hpn hpc hx0 hxn hxc hd0 hdn hdc
    hs0 hsn hsc h1 h2
  rcases hbx : runBody st opts url env with ⟨r, st1, t1⟩
  rw [hbx] at hbd
  have hce := closeEffect_all st1 p h1 h2
  rcases hcex : closeEffect st1 with ⟨st2, t2⟩
  rw [hcex] at hce
  rcases st with ⟨_ | b⟩
  · simp [run]
  · by_cases hu : url = ""
    · simp [run, hu]
    · by_cases hi : jsIncludes url "linkedin.com/" = true
      · rcases r with e | res <;>
          simp_all [run, hu, hi, hbx, hcex, List.all_append]
      · simp [run, hu, Bool.of_not_eq_true hi]

theorem closeEffect_navCount (st : ScraperState) (k : PageKind) :
    navCount k (closeEffect st).2 = 0 := by
  rcases st with ⟨_ | ⟨bc, bp⟩⟩
  · simp [closeEffect, navCount]
  · rcases bp with _ | q <;> simp [closeEffect, navCount, isNavOf]

theorem createPage_navCount (st : ScraperState) (k2 : PageKind) (f : StepOutcome)
    (k : PageKind) : navCount k (createPage st k2 f).2.2 = 0 := by
  rcases st with ⟨_ | ⟨bc, bp⟩⟩
  · simp [createPage, navCount]
  · have hce := closeEffect_navCount ⟨some ⟨bc, bp⟩⟩ k
    rcases bc <;> rcases f with _ | e <;>
      simp_all [createPage, navCount, isNavOf, List.countP_cons]

theorem runDetailTask_navCount_le {α : Type} (k : PageKind) (sp : String)
    (url : String) (st : ScraperState) (te : TaskEnv α) (k2 : PageKind) :
    navCount k2 (runDetailTask k sp url st te).2.2 ≤ 1 := by
  have hcp := createPage_navCount st k te.pageOk k2
  rcases hx : createPage st k te.pageOk with ⟨r, st1, t1⟩
  rw [hx] at hcp
  simp only [navCount] at hcp
  rcases r with e | pg
  · simp [runDetailTask, hx, navCount, hcp]
  · rcases hnav : te.nav with _ | e
    · rcases hex : te.extract with e | xs <;>
      · simp only [runDetailTask, hx, hnav, hex]
        simp only [navCount, List.countP_append, List.countP_cons,
          List.countP_nil, hcp]
        by_cases hk : k = k2 <;> simp [isNavOf, hk]
    · simp only [runDetailTask, hx, hnav]
      simp only [navCount, List.countP_append, List.countP_cons,
        List.countP_nil, hcp]
      by_cases hk : k = k2 <;> simp [isNavOf, hk]

theorem runDetailTask_navCount_other {α : Type} (k : PageKind) (sp : String)
    (url : String) (st : ScraperState) (te : TaskEnv α) (k2 : PageKind)
    (hk : k ≠ k2) : navCount k2 (runDetailTask k sp url st te).2.2 = 0 := by
  have hcp := createPage_navCount st k te.pageOk k2
  rcases hx : createPage st k te.pageOk with ⟨r, st1, t1⟩
  rw [hx] at hcp
  simp only [navCount] at hcp
  rcases r with e | pg
  · simp [runDetailTask, hx, navCount, hcp]
  · rcases hnav : te.nav with _ | e
    · rcases hex : te.extract with e | xs <;>
      · simp only [runDetailTask, hx, hnav, hex]
        simp [navCount, List.countP_append, List.countP_cons,
          List.countP_nil, hcp, isNavOf, hk]
    · simp only [runDetailTask, hx, hnav]
      simp [navCount, List.countP_append, List.countP_cons,
        List.countP_nil, hcp, isNavOf, hk]

theorem fanOut_navCount_le {ε δ σ : Type} (st : ScraperState) (url : String)
    (e1 : TaskEnv ε) (e2 : TaskEnv δ) (e3 : TaskEnv σ) (k2 : PageKind) :
    navCount k2 (fanOut st url e1 e2 e3).2.2 ≤ 1 := by
  have ha := runDetailTask_navCount_le PageKind.experience "/details/experience" url st e1 k2
  have hb := runDetailTask_navCount_le PageKind.education "/details/education" url st e2 k2
  have hcc := runDetailTask_navCount_le PageKind.skills "/details/skills" url st e3 k2
  have ha0 := runDetailTask_navCount_other PageKind.experience "/details/experience" url st e1
  have hb0 := runDetailTask_navCount_other PageKind.education "/details/education" url st e2
  have hc0 := runDetailTask_navCount_other PageKind.skills "/details/skills" url st e3
  rcases h1x : runDetailTask PageKind.experience "/details/experience" url st e1 with ⟨r1, s1, t1⟩
  rcases h2x : runDetailTask PageKind.education "/details/education" url st e2 with ⟨r2, s2, t2⟩
  rcases h3x : runDetailTask PageKind.skills "/details/skills" url st e3 with ⟨r3, s3, t3⟩
  rw [h1x] at ha ha0; rw [h2x] at hb hb0; rw [h3x] at hcc hc0
  simp only at ha hb hcc ha0 hb0 hc0
  simp only [fanOut, h1x, h2x, h3x, navCount, List.countP_append] at ha hb hcc ha0 hb0 hc0 ⊢
  rcases k2
  · have u1 := ha0 PageKind.loginCheck (by simp)
    have u2 := hb0 PageKind.loginCheck (by simp)
    have u3 := hc0 PageKind.loginCheck (by simp)
    omega
  · have u1 := ha0 PageKind.primary (by simp)
    have u2 := hb0 PageKind.primary (by simp)
    have u3 := hc0 PageKind.primary (by simp)
    omega
  · have u2 := hb0 PageKind.experience (by simp)
    have u3 := hc0 PageKind.experience (by simp)
    omega
  · have u1 := ha0 PageKind.education (by simp)
    have u3 := hc0 PageKind.education (by simp)
    omega
  · have u1 := ha0 PageKind.skills (by simp)
    have u2 := hb0 PageKind.skills (by simp)
    omega

theorem fanOut_navCount_primary {ε δ σ : Type} (st : ScraperState) (url : String)
    (e1 : TaskEnv ε) (e2 : TaskEnv δ) (e3 : TaskEnv σ) :
    navCount PageKind.primary (fanOut st url e1 e2 e3).2.2 = 0 := by
  have ha0 := runDetailTask_navCount_other PageKind.experience "/details/experience"
    url st e1 PageKind.primary (by simp)
  have hb0 := runDetailTask_navCount_other PageKind.education "/details/education"
    url st e2 PageKind.primary (by simp)
  have hc0 := runDetailTask_navCount_other PageKind.skills "/details/skills"
    url st e3 PageKind.primary (by simp)
  rcases h1x : runDetailTask PageKind.experience "/details/experience" url st e1 with ⟨r1, s1, t1⟩
  rcases h2x : runDetailTask PageKind.education "/details/education" url st e2 with ⟨r2, s2, t2⟩
  rcases h3x : runDetailTask PageKind.skills "/details/skills" url st e3 with ⟨r3, s3, t3⟩
  rw [h1x] at ha0; rw [h2x] at hb0; rw [h3x] at hc0
  simp only [navCount] at ha0 hb0 hc0
  simp [fanOut, h1x, h2x, h3x, navCount, List.countP_append, ha0, hb0, hc0]

theorem runBody_navCount {π ε δ ν σ : Type} (st : ScraperState)
    (opts : ScraperOptions) (url : String) (env : RunEnv π ε δ ν σ)
    (k2 : PageKind) : navCount k2 (runBody st opts url env).2.2 ≤ 1 := by
  have hcp := createPage_navCount st PageKind.primary env.primaryPageOk k2
  rcases hx : createPage st PageKind.primary env.primaryPageOk with ⟨r, st1, t1⟩
  rw [hx] at hcp
  simp only [navCount] at hcp
  have hmix : navCount k2 [Event.navigated PageKind.primary url (primaryNavOptions opts)] +
      navCount k2 (fanOut st1 url env.expTask env.eduTask env.skillsTask).2.2 ≤ 1 := by
    have hsingle : ∀ k3 : PageKind, k3 ≠ PageKind.primary →
        navCount k3 [Event.navigated PageKind.primary url (primaryNavOptions opts)] = 0 := by
      intro k3 hk3
      simp [navCount, isNavOf, List.countP_cons, beq_iff_eq]
      intro hcon
      exact hk3 hcon.symm
    rcases k2
    · rw [hsingle PageKind.loginCheck (by simp)]
      have h1 := fanOut_navCount_le st1 url env.expTask env.eduTask env.skillsTask PageKind.loginCheck
      omega
    · have h0 := fanOut_navCount_primary st1 url env.expTask env.eduTask env.skillsTask
      rw [h0]
      simp [navCount, isNavOf, List.countP_cons]
    · rw [hsingle PageKind.experience (by simp)]
      have h1 := fanOut_navCount_le st1 url env.expTask env.eduTask env.skillsTask PageKind.experience
      omega
    · rw [hsingle PageKind.education (by simp)]
      have h1 := fanOut_navCount_le st1 url env.expTask env.eduTask env.skillsTask PageKind.education
      omega
    · rw [hsingle PageKind.skills (by simp)]
      have h1 := fanOut_navCount_le st1 url env.expTask env.eduTask env.skillsTask PageKind.skills
      omega
  rcases hfx : fanOut st1 url env.expTask env.eduTask env.skillsTask with ⟨rf, st2, t3⟩
  rw [hfx] at hmix
  simp only at hmix
  have hce := closeEffect_navCount st2 k2
  rcases hcex : closeEffect st2 with ⟨st3, t4⟩
  rw [hcex] at hce
  simp only [navCount] at hce
  have hclosed : isNavOf k2 (Event.pageClosed PageKind.primary) = false := by
    simp [isNavOf]
  simp only [navCount, List.countP_append, List.countP_cons, List.countP_nil] at hmix
  rcases r with e | pg
  · simp [runBody, hx, navCount, hcp]
  · rcases hnav : env.primaryNav with _ | e
    · rcases hsc2 : env.scroll with _ | e
      · rcases hpr : env.profile with e | prof
        · simp only [runBody, hx, hnav, hsc2, hpr]
          simp only [navCount, List.countP_append, List.countP_cons, List.countP_nil]
          omega
        · rcases hvo : env.volunteering with e | vol
          · simp only [runBody, hx, hnav, hsc2, hpr, hvo]
            simp only [navCount, List.countP_append, List.countP_cons, List.countP_nil]
            omega
          · rcases rf with e | res
            · simp only [runBody, hx, hnav, hsc2, hpr, hvo, hfx]
              simp only [navCount, List.countP_append, List.countP_cons, List.countP_nil]
              omega
            · rcases res with ⟨xs1, xs2, xs3⟩
              rcases hka : opts.keepAlive
              · simp only [runBody, hx, hnav, hsc2, hpr, hvo, hfx, hka, hcex,
                  Bool.false_eq_true, if_false]
                simp only [navCount, List.countP_append, List.countP_cons,
                  List.countP_nil, hclosed, Bool.false_eq_true, if_false]
                omega
              · simp only [runBody, hx, hnav, hsc2, hpr, hvo, hfx, hka, if_true]
                simp only [navCount, List.countP_append, List.countP_cons,
                  List.countP_nil, hclosed, Bool.false_eq_true, if_false]
                omega
      · simp only [runBody, hx, hnav, hsc2]
        simp only [navCount, List.countP_append, List.countP_cons, List.countP_nil]
        omega
    · simp only [runBody, hx, hnav]
      simp only [navCount, List.countP_append, List.countP_cons, List.countP_nil]
      omega

theorem run_navCount {π ε δ ν σ : Type} (st : ScraperState)
    (opts : ScraperOptions) (url : String) (env : RunEnv π ε δ ν σ)
    (k2 : PageKind) : navCount k2 (run st opts url env).2.2 ≤ 1 := by
  have hbd := runBody_navCount st opts url env k2
  rcases hbx : runBody st opts url env with ⟨r, st1, t1⟩
  rw [hbx] at hbd
  simp only [navCount] at hbd
  have hce := closeEffect_navCount st1 k2
  rcases hcex : closeEffect st1 with ⟨st2, t2⟩
  rw [hcex] at hce
  simp only [navCount] at hce
  rcases st with ⟨_ | b⟩
  · simp [run, navCount]
  · by_cases hu : url = ""
    · simp [run, hu, navCount]
    · by_cases hi : jsIncludes url "linkedin.com/" = true
      · rcases r with e | res
        · simp only [run, hu, hi, hbx, hcex, if_neg hu, Bool.not_true,
            Bool.false_eq_true, if_false]
          simp only [navCount, List.countP_append]
          omega
        · simp only [run, hu, hi, hbx, if_neg hu, Bool.not_true,
            Bool.false_eq_true, if_false]
          simp only [navCount]
          omega
      · simp [run, hu, Bool.of_not_eq_true hi, navCount]

theorem disconnect_idem (st : ScraperState) :
    disconnect (disconnect st) = disconnect st := by
  rcases st with ⟨_ | b⟩ <;> simp [disconnect]

theorem disconnect_isSome (st : ScraperState) :
    (disconnect st).browser.isSome = st.browser.isSome := by
  rcases st with ⟨_ | b⟩ <;> simp [disconnect]

theorem isTerminatedB_disconnect (st : ScraperState)
    (h : st.browser.isSome = true) : isTerminatedB (disconnect st) = true := by
  rcases st with ⟨_ | ⟨bc, bp⟩⟩ <;> simp_all [disconnect, isTerminatedB]

theorem closeEffect_state (st : ScraperState) :
    (closeEffect st).1 = st ∨ (closeEffect st).1 = disconnect st := by
  rcases st with ⟨_ | b⟩
  · left; simp [closeEffect]
  · right; simp [closeEffect]

theorem createPage_state (st : ScraperState) (k : PageKind) (f : StepOutcome) :
    (createPage st k f).2.1 = st ∨ (createPage st k f).2.1 = disconnect st := by
  rcases st with ⟨_ | ⟨bc, bp⟩⟩
  · left; simp [createPage]
  · rcases bc
    · right; simp [createPage, closeEffect]
    · rcases f with _ | e
      · left; simp [createPage]
      · right; simp [createPage, closeEffect]

theorem runDetailTask_state {α : Type} (k : PageKind) (sp : String) (url : String)
    (st : ScraperState) (te : TaskEnv α) :
    (runDetailTask k sp url st te).2.1 = st ∨
      (runDetailTask k sp url st te).2.1 = disconnect st := by
  have h := createPage_state st k te.pageOk
  rcases hx : createPage st k te.pageOk with ⟨r, st1, t1⟩
  rw [hx] at h
  simp only at h
  rcases r with e | pg
  · simpa [runDetailTask, hx] using h
  · rcases hnav : te.nav with _ | e
    · rcases hex : te.extract with e | xs <;>
        simpa [runDetailTask, hx, hnav, hex] using h
    · simpa [runDetailTask, hx, hnav] using h

theorem fanOut_state {ε δ σ : Type} (st : ScraperState) (url : String)
    (e1 : TaskEnv ε) (e2 : TaskEnv δ) (e3 : TaskEnv σ) :
    (fanOut st url e1 e2 e3).2.1 = st ∨
      (fanOut st url e1 e2 e3).2.1 = disconnect st := by
  rcases h1x : runDetailTask PageKind.experience "/details/experience" url st e1 with ⟨r1, s1, t1⟩
  rcases h2x : runDetailTask PageKind.education "/details/education" url st e2 with ⟨r2, s2, t2⟩
  rcases h3x : runDetailTask PageKind.skills "/details/skills" url st e3 with ⟨r3, s3, t3⟩
  simp only [fanOut, h1x, h2x, h3x]
  by_cases hc : (isTerminatedB s1 || isTerminatedB s2 || isTerminatedB s3) = true
  · right; simp [hc]
  · left; simp [Bool.of_not_eq_true hc]

theorem runBody_state {π ε δ ν σ : Type} (st : ScraperState)
    (opts : ScraperOptions) (url : String) (env : RunEnv π ε δ ν σ) :
    (runBody st opts url env).2.1 = st ∨
      (runBody st opts url env).2.1 = disconnect st := by
  have hcs := createPage_state st PageKind.primary env.primaryPageOk
  rcases hx : createPage st PageKind.primary env.primaryPageOk with ⟨r, st1, t1⟩
  rw [hx] at hcs
  simp only at hcs
  rcases r with e | pg
  · simpa [runBody, hx] using hcs
  · have hfs := fanOut_state st1 url env.expTask env.eduTask env.skillsTask
    rcases hfx : fanOut st1 url env.expTask env.eduTask env.skillsTask with ⟨rf, st2, t3⟩
    rw [hfx] at hfs
    simp only at hfs
    have hcs2 := closeEffect_state st2
    rcases hcex : closeEffect st2 with ⟨st3, t4⟩
    rw [hcex] at hcs2
    simp only at hcs2
    have hst2 : st2 = st ∨ st2 = disconnect st := by
      rcases hfs with h | h <;> rcases hcs with h2 | h2 <;>
        simp_all [disconnect_idem]
    have hst3 : st3 = st ∨ st3 = disconnect st := by
      rcases hcs2 with h | h <;> rcases hst2 with h2 | h2 <;>
        simp_all [disconnect_idem]
    rcases hnav : env.primaryNav with _ | e
    · rcases hsc2 : env.scroll with _ | e
      · rcases hpr : env.profile with e | prof
        · simpa [runBody, hx, hnav, hsc2, hpr] using hcs
        · rcases hvo : env.volunteering with e | vol
          · simpa [runBody, hx, hnav, hsc2, hpr, hvo] using hcs
          · rcases rf with e | res
            · simpa [runBody, hx, hnav, hsc2, hpr, hvo, hfx] using hst2
            · rcases res with ⟨xs1, xs2, xs3⟩
              rcases hka : opts.keepAlive
              · simpa [runBody, hx, hnav, hsc2, hpr, hvo, hfx, hka, hcex] using hst3
              · simpa [runBody, hx, hnav, hsc2, hpr, hvo, hfx, hka] using hst2
      · simpa [runBody, hx, hnav, hsc2] using hcs
    · simpa [runBody, hx, hnav] using hcs

theorem createPage_isError (st : ScraperState) (k : PageKind) (f : StepOutcome) :
    exceptIsError (createPage st k f).1 = (!isReadyB st || f.isSome) := by
  rcases st with ⟨_ | ⟨bc, bp⟩⟩
  · simp [createPage, exceptIsError, isReadyB]
  · rcases bc <;> rcases f with _ | e <;>
      simp [createPage, closeEffect, exceptIsError, isReadyB]

theorem runDetailTask_isError {α : Type} (k : PageKind) (sp : String)
    (url : String) (st : ScraperState) (te : TaskEnv α)
    (h : isReadyB st = true) :
    exceptIsError (runDetailTask k sp url st te).1 = te.failsB := by
  rcases st with ⟨_ | ⟨bc, bp⟩⟩
  · simp [isReadyB] at h
  · simp [isReadyB] at h
    subst h
    rcases hpo : te.pageOk with _ | e
    · rcases hnav : te.nav with _ | e
      · rcases hex : te.extract with e | xs <;>
          simp [runDetailTask, createPage, hpo, hnav, hex, exceptIsError,
            TaskEnv.failsB]
      · simp [runDetailTask, createPage, hpo, hnav, exceptIsError, TaskEnv.failsB]
    · simp [runDetailTask, createPage, closeEffect, hpo, exceptIsError,
        TaskEnv.failsB]

theorem fanOut_isError {ε δ σ : Type} (st : ScraperState) (url : String)
    (e1 : TaskEnv ε) (e2 : TaskEnv δ) (e3 : TaskEnv σ)
    (h : isReadyB st = true) :
    exceptIsError (fanOut st url e1 e2 e3).1 =
      (e1.failsB || e2.failsB || e3.failsB) := by
  have ha := runDetailTask_isError PageKind.experience "/details/experience" url st e1 h
  have hb := runDetailTask_isError PageKind.education "/details/education" url st e2 h
  have hcc := runDetailTask_isError PageKind.skills "/details/skills" url st e3 h
  rcases h1x : runDetailTask PageKind.experience "/details/experience" url st e1 with ⟨r1, s1, t1⟩
  rcases h2x : runDetailTask PageKind.education "/details/education" url st e2 with ⟨r2, s2, t2⟩
  rcases h3x : runDetailTask PageKind.skills "/details/skills" url st e3 with ⟨r3, s3, t3⟩
  rw [h1x] at ha; rw [h2x] at hb; rw [h3x] at hcc
  simp only at ha hb hcc
  rcases r1 with e | x1 <;> rcases r2 with e | x2 <;> rcases r3 with e | x3 <;>
    simp_all [fanOut, h1x, h2x, h3x, exceptIsError]

theorem runBody_isError {π ε δ ν σ : Type} (st : ScraperState)
    (opts : ScraperOptions) (url : String) (env : RunEnv π ε δ ν σ) :
    exceptIsError (runBody st opts url env).1 = (!isReadyB st || !env.allOkB) := by
  rcases st with ⟨_ | ⟨bc, bp⟩⟩
  · simp [runBody, createPage, exceptIsError, isReadyB]
  · rcases bc
    · simp [runBody, createPage, closeEffect, exceptIsError, isReadyB]
    · have hready : isReadyB ⟨some ⟨true, bp⟩⟩ = true := by simp [isReadyB]
      rcases hpo : env.primaryPageOk with _ | e
      · have hfo := fanOut_isError ⟨some ⟨true, bp⟩⟩ url env.expTask env.eduTask
          env.skillsTask hready
        rcases hfx : fanOut ⟨some ⟨true, bp⟩⟩ url env.expTask env.eduTask
          env.skillsTask with ⟨rf, st2, t3⟩
        rw [hfx] at hfo
        simp only at hfo
        rcases hnav : env.primaryNav with _ | e
        · rcases hsc2 : env.scroll with _ | e
          · rcases hpr : env.profile with e | prof
            · simp [runBody, createPage, hpo, hnav, hsc2, hpr, exceptIsError,
                RunEnv.allOkB, isReadyB]
            · rcases hvo : env.volunteering with e | vol
              · simp [runBody, createPage, hpo, hnav, hsc2, hpr, hvo,
                  exceptIsError, RunEnv.allOkB, isReadyB]
              · rcases rf with e | res
                · simp only [exceptIsError] at hfo
                  simp [runBody, createPage, hpo, hnav, hsc2, hpr, hvo, hfx,
                    exceptIsError, RunEnv.allOkB, isReadyB, ← hfo]
                · rcases res with ⟨xs1, xs2, xs3⟩
                  simp only [exceptIsError] at hfo
                  rcases hka : opts.keepAlive <;>
                    simp [runBody, createPage, hpo, hnav, hsc2, hpr, hvo, hfx,
                      hka, exceptIsError, RunEnv.allOkB, isReadyB, ← hfo]
          · simp [runBody, createPage, hpo, hnav, hsc2, exceptIsError,
              RunEnv.allOkB, isReadyB]
        · simp [runBody, createPage, hpo, hnav, exceptIsError, RunEnv.allOkB,
            isReadyB]
      · simp [runBody, createPage, closeEffect, hpo, exceptIsError,
          RunEnv.allOkB, isReadyB]

theorem run_isError {π ε δ ν σ : Type} (st : ScraperState)
    (opts : ScraperOptions) (url : String) (env : RunEnv π ε δ ν σ) :
    exceptIsError (run st opts url env).1 =
      !(isReadyB st && !(url == "") && jsIncludes url "linkedin.com/" &&
        env.allOkB) := by
  have hbd := runBody_isError st opts url env
  rcases hbx : runBody st opts url env with ⟨r, st1, t1⟩
  rw [hbx] at hbd
  simp only at hbd
  rcases st with ⟨_ | b⟩
  · simp [run, exceptIsError, isReadyB]
  · by_cases hu : url = ""
    · simp [run, hu, exceptIsError]
    · by_cases hi : jsIncludes url "linkedin.com/" = true
      · rcases r with e | res <;>
          simp_all [run, hu, hi, hbx, exceptIsError]
      · simp [run, hu, Bool.of_not_eq_true hi, exceptIsError]

theorem run_error_terminated {π ε δ ν σ : Type} (st : ScraperState)
    (opts : ScraperOptions) (url : String) (env : RunEnv π ε δ ν σ)
    (hsome : st.browser.isSome = true) (hu : url ≠ "")
    (hi : jsIncludes url "linkedin.com/" = true)
    (herr : exceptIsError (run st opts url env).1 = true) :
    isTerminatedB (run st opts url env).2.1 = true := by
  have hbs := runBody_state st opts url env
  rcases hbx : runBody st opts url env with ⟨r, st1, t1⟩
  rw [hbx] at hbs
  simp only at hbs
  have hst1 : st1.browser.isSome = true := by
    rcases hbs with h | h <;> rw [h] <;> simp [disconnect_isSome, hsome]
  rcases st with ⟨_ | b⟩
  · simp at hsome
  · rcases r with e | res
    · rcases st1 with ⟨_ | ⟨bc, bp⟩⟩
      · simp at hst1
      · simp [run, hu, hi, hbx, closeEffect, disconnect, isTerminatedB]
    · simp [run, hu, hi, hbx, exceptIsError] at herr

theorem run_happy_keepAlive {π ε δ ν σ : Type} (pid : Option Nat)
    (opts : ScraperOptions) (hka : opts.keepAlive = true) (url : String)
    (hu : url ≠ "") (hi : jsIncludes url "linkedin.com/" = true)
    (prof : π) (vol : List ν) (es : List ε) (ed : List δ) (sk : List σ) :
    run ⟨some ⟨true, pid⟩⟩ opts url
      ⟨none, none, none, Except.ok prof, Except.ok vol,
       ⟨none, none, Except.ok es⟩, ⟨none, none, Except.ok ed⟩,
       ⟨none, none, Except.ok sk⟩⟩ =
    (Except.ok ⟨prof, es, ed, vol, sk⟩, ⟨some ⟨true, pid⟩⟩,
     [Event.pageCreated PageKind.primary,
      Event.navigated PageKind.primary url (primaryNavOptions opts),
      Event.pageCreated PageKind.experience,
      Event.navigated PageKind.experience (url ++ "/details/experience") detailNavOptions,
      Event.pageClosed PageKind.experience,
      Event.pageCreated PageKind.education,
      Event.navigated PageKind.education (url ++ "/details/education") detailNavOptions,
      Event.pageClosed PageKind.education,
      Event.pageCreated PageKind.skills,
      Event.navigated PageKind.skills (url ++ "/details/skills") detailNavOptions,
      Event.pageClosed PageKind.skills,
      Event.pageClosed PageKind.primary]) := by
  simp [run, runBody, createPage, fanOut, runDetailTask, isTerminatedB,
    hu, hi, hka]

theorem run_happy_noKeepAlive {π ε δ ν σ : Type} (pid : Option Nat)
    (opts : ScraperOptions) (hka : opts.keepAlive = false) (url : String)
    (hu : url ≠ "") (hi : jsIncludes url "linkedin.com/" = true)
    (prof : π) (vol : List ν) (es : List ε) (ed : List δ) (sk : List σ) :
    (run ⟨some ⟨true, pid⟩⟩ opts url
      ⟨none, none, none, Except.ok prof, Except.ok vol,
       ⟨none, none, Except.ok es⟩, ⟨none, none, Except.ok ed⟩,
       ⟨none, none, Except.ok sk⟩⟩).1 = Except.ok ⟨prof, es, ed, vol, sk⟩
    ∧ (run ⟨some ⟨true, pid⟩⟩ opts url
      ⟨none, none, none, Except.ok prof, Except.ok vol,
       ⟨none, none, Except.ok es⟩, ⟨none, none, Except.ok ed⟩,
       ⟨none, none, Except.ok sk⟩⟩).2.1 = ⟨some ⟨false, pid⟩⟩
    ∧ Event.browserClosed ∈ (run ⟨some ⟨true, pid⟩⟩ opts url
      ⟨none, none, none, Except.ok prof, Except.ok vol,
       ⟨none, none, Except.ok es⟩, ⟨none, none, Except.ok ed⟩,
       ⟨none, none, Except.ok sk⟩⟩).2.2 := by
  refine ⟨?_, ?_, ?_⟩ <;>
    simp [run, runBody, createPage, fanOut, runDetailTask, isTerminatedB,
      closeEffect, disconnect, hu, hi, hka]

theorem checkIfLoggedIn_eq (pid : Option Nat) (opts : ScraperOptions)
    (u : String) :
    checkIfLoggedIn ⟨some ⟨true, pid⟩⟩ opts ⟨none, none, u⟩ =
      ((if jsEndsWith u "/login" then
          Except.error (JSError.sessionExpired sessionExpiredMsg)
        else Except.ok ()),
       ⟨some ⟨true, pid⟩⟩,
       [Event.pageCreated PageKind.loginCheck,
        Event.navigated PageKind.loginCheck loginUrl (loginNavOptions opts),
        Event.pageClosed PageKind.loginCheck]) := by
  by_cases hl : jsEndsWith u "/login" = true <;>
    simp [checkIfLoggedIn, createPage, hl]

theorem setup_failedVerify (pid : Option Nat) (opts : ScraperOptions)
    (u : String) (hl : jsEndsWith u "/login" = true) :
    (setup initialState opts ⟨none, pid, ⟨none, none, u⟩⟩).1 =
      Except.error (JSError.sessionExpired sessionExpiredMsg)
    ∧ (setup initialState opts ⟨none, pid, ⟨none, none, u⟩⟩).2.1 =
      ⟨some ⟨false, pid⟩⟩ := by
  have hck := checkIfLoggedIn_eq pid opts u
  constructor <;>
    simp [setup, hck, hl, closeEffect, disconnect]

theorem checkIfLoggedIn_all (st : ScraperState) (opts : ScraperOptions)
    (lenv : LoginCheckEnv) (p : Event → Bool)
    (h0 : p (Event.pageCreated PageKind.loginCheck) = true)
    (hn : p (Event.navigated PageKind.loginCheck loginUrl (loginNavOptions opts)) = true)
    (hc : p (Event.pageClosed PageKind.loginCheck) = true)
    (h1 : p Event.browserClosed = true) (h2 : ∀ q, p (Event.treeKilled q) = true) :
    (checkIfLoggedIn st opts lenv).2.2.all p = true := by
  have hcp := createPage_all st PageKind.loginCheck lenv.pageOk p h0 h1 h2
  rcases hx : createPage st PageKind.loginCheck lenv.pageOk with ⟨r, st1, t1⟩
  rw [hx] at hcp
  rcases r with e | pg
  · simp [checkIfLoggedIn, hx, hcp]
  · rcases hnav : lenv.nav with _ | e
    · by_cases hl : jsEndsWith lenv.finalUrl "/login" = true <;>
        simp_all [checkIfLoggedIn, hx, hnav, hl, List.all_append]
    · simp_all [checkIfLoggedIn, hx, hnav, List.all_append]

theorem checkIfLoggedIn_trace_ok (st : ScraperState) (opts : ScraperOptions)
    (lenv : LoginCheckEnv) :
    (checkIfLoggedIn st opts lenv).2.2.all (loginTraceOkB opts) = true := by
  apply checkIfLoggedIn_all <;> simp [loginTraceOkB]

theorem run_trace_ok {π ε δ ν σ : Type} (st : ScraperState)
    (opts : ScraperOptions) (url : String) (env : RunEnv π ε δ ν σ) :
    (run st opts url env).2.2.all (runTraceOkB url opts) = true := by
  apply run_all <;> simp [runTraceOkB]

theorem run_no_launch {π ε δ ν σ : Type} (st : ScraperState)
    (opts : ScraperOptions) (url : String) (env : RunEnv π ε δ ν σ) :
    Event.browserLaunched ∉ (run st opts url env).2.2 := by
  intro hmem
  have hall := run_trace_ok st opts url env
  rw [List.all_eq_true] at hall
  have hfalse := hall _ hmem
  simp [runTraceOkB] at hfalse

theorem parseDateRange_endDate_isSome (t : Option String) :
    (parseDateRange t).endDate ≠ none := by
  unfold parseDateRange
  rcases t with _ | s
  · simp [jsOrNullStr]
  · by_cases hs : s = ""
    · simp [jsOrNullStr, hs]
    · rcases h1 : (jsSplit s "–")[1]? with _ | seg
      · simp [jsOrNullStr, hs, h1]
      · by_cases hseg : seg = ""
        · simp [jsOrNullStr, hs, h1, hseg]
        · by_cases hp : jsToLower (jsTrim seg) = "present" <;>
            simp [jsOrNullStr, hs, h1, hseg, hp]

theorem parseDateRange_none :
    (parseDateRange none).endDate = some "Present"
    ∧ (parseDateRange none).endDateIsPresent = false := by
  simp [parseDateRange, jsOrNullStr]

theorem parseDateRange_empty :
    (parseDateRange (some "")).endDate = some "Present"
    ∧ (parseDateRange (some "")).endDateIsPresent = false := by
  simp [parseDateRange, jsOrNullStr]

theorem parseDateRange_noSecondSegment (s : String)
    (h : (jsSplit s "–")[1]? = none ∨ (jsSplit s "–")[1]? = some "") :
    (parseDateRange (some s)).endDate = some "Present" := by
  unfold parseDateRange
  by_cases hs : s = ""
  · simp [jsOrNullStr, hs]
  · rcases h with h | h <;> simp [jsOrNullStr, hs, h]

theorem parseDateRange_present (s seg : String)
    (h : (jsSplit s "–")[1]? = some seg)
    (hp : jsToLower (jsTrim seg) = "present") :
    (parseDateRange (some s)).endDate = some "Present"
    ∧ (parseDateRange (some s)).endDateIsPresent = true := by
  unfold parseDateRange
  by_cases hs : s = ""
  · exfalso
    rw [hs] at h
    rw [show (jsSplit "" "–") = [""] from by decide] at h
    simp at h
  · by_cases hseg : seg = ""
    · exfalso
      rw [hseg] at hp
      revert hp
      decide
    · simp [jsOrNullStr, hs, h, hseg, hp]

theorem handleRequest_abort_iff (rt : ResourceType) (url : String)
    (hn : Option String) :
    handleRequest rt url hn = InterceptDecision.abort ↔
      (rt ∈ blockedResources ∨ url ∈ blockedUrls ∨
        ∃ hname, hn = some hname ∧ hname ≠ "" ∧ hname ∉ allowedHostnames) := by
  unfold handleRequest
  by_cases h1 : blockedResources.contains rt = true
  · simp_all
  · by_cases h2 : blockedUrls.contains url = true
    · simp_all
    · rcases hn with _ | hname
      · simp_all [jsTruthyStr]
      · by_cases h3 : hname = ""
        · simp_all [jsTruthyStr]
        · by_cases h4 : allowedHostnames.contains hname = true
          · simp_all [jsTruthyStr]
          · simp_all [jsTruthyStr]

theorem createPage_ok_handler (st : ScraperState) (k : PageKind)
    (f : StepOutcome) (pg : ProvisionedPage) (st2 : ScraperState)
    (tr : List Event) (h : createPage st k f = (Except.ok pg, st2, tr)) :
    pg.onRequest = handleRequest := by
  rcases st with ⟨_ | ⟨bc, bp⟩⟩
  · simp [createPage] at h
  · rcases bc
    · rcases hcex : closeEffect ⟨some ⟨false, bp⟩⟩ with ⟨st1, t1⟩
      simp [createPage, hcex] at h
    · rcases f with _ | e
      · simp [createPage] at h
        rw [← h.1]
      · rcases hcex : closeEffect ⟨some ⟨true, bp⟩⟩ with ⟨st1, t1⟩
        simp [createPage, hcex] at h

/-- Claim C4: for every page created by `createPage` and every intercepted
request, the request is aborted exactly when its resource type is in the
blocked-resource list (image, media, font, texttrack, manifest), or its
URL is in the fixed tracking denylist, or its hostname is parseable (a
truthy string) and not in the fixed allowlist of LinkedIn hostnames;
otherwise the request continues — in particular a stylesheet request to an
allowlisted host (outside the denylist) is never aborted. -/
theorem request_interception_policy :
    ∀ (st : ScraperState) (k : PageKind) (f : StepOutcome)
      (pg : ProvisionedPage) (st2 : ScraperState) (tr : List Event),
      createPage st k f = (Except.ok pg, st2, tr) →
      ∀ (rt : ResourceType) (url : String) (hn : Option String),
        (pg.onRequest rt url hn = InterceptDecision.abort ↔
          (rt ∈ blockedResources ∨ url ∈ blockedUrls ∨
            ∃ hname, hn = some hname ∧ hname ≠ "" ∧ hname ∉ allowedHostnames))
        ∧ (pg.onRequest rt url hn ≠ InterceptDecision.abort →
            pg.onRequest rt url hn = InterceptDecision.cont)
        ∧ (∀ hname, rt = ResourceType.stylesheet → hn = some hname →
            hname ∈ allowedHostnames → url ∉ blockedUrls →
            pg.onRequest rt url hn = InterceptDecision.cont) := by
  intro st k f pg st2 tr h rt url hn
  have hpg := createPage_ok_handler st k f pg st2 tr h
  rw [hpg]
  refine ⟨handleRequest_abort_iff rt url hn, ?_, ?_⟩
  · intro hne
    rcases hr : handleRequest rt url hn
    · exact absurd hr hne
    · rfl
  · intro hname hrt hhn hmem hurl
    rcases hr : handleRequest rt url hn
    · exfalso
      have := (handleRequest_abort_iff rt url hn).mp hr
      rcases this with hres | hres | ⟨hname2, heq, _, hnotmem⟩
      · rw [hrt] at hres
        simp [blockedResources] at hres
      · exact hurl hres
      · rw [hhn] at heq
        injection heq with heq2
        rw [heq2] at hmem
        exact hnotmem hmem
    · rfl

/-- Witness for C4 at a concrete created page: a stylesheet request to an
allowlisted LinkedIn host continues, and an image request aborts. -/
theorem request_interception_policy_witness :
    handleRequest ResourceType.stylesheet "https://www.linkedin.com/in/x"
      (some "www.linkedin.com") = InterceptDecision.cont
    ∧ handleRequest ResourceType.image "https://www.linkedin.com/in/x"
      (some "www.linkedin.com") = InterceptDecision.abort := by
  have h1 := request_interception_policy ⟨some ⟨true, some 7⟩⟩ PageKind.primary
    none ⟨handleRequest⟩ ⟨some ⟨true, some 7⟩⟩ [Event.pageCreated PageKind.primary]
    rfl ResourceType.stylesheet "https://www.linkedin.com/in/x"
    (some "www.linkedin.com")
  have h2 := request_interception_policy ⟨some ⟨true, some 7⟩⟩ PageKind.primary
    none ⟨handleRequest⟩ ⟨some ⟨true, some 7⟩⟩ [Event.pageCreated PageKind.primary]
    rfl ResourceType.image "https://www.linkedin.com/in/x"
    (some "www.linkedin.com")
  constructor
  · exact h1.2.2 "www.linkedin.com" rfl rfl (by decide) (by decide)
  · exact h2.1.mpr (Or.inl (by decide))

/-- Claim C9: in the raw extraction of volunteering and experience
entries, `endDate` is never null: when the date-range text has no second
en-dash segment (or an empty one), or the second segment trims and
lower-cases to "present", `endDate` is the literal "Present" — including
entries with no date-range text at all, where `endDateIsPresent` is
simultaneously false. -/
theorem raw_end_date_never_null :
    (∀ v : VolunteerNodeInput, (getVolunteeringRawEntry v).endDate ≠ none)
    ∧ (∀ x : ExperienceNodeInput, (getExperiencesRawEntry x).endDate ≠ none)
    ∧ (∀ s : String,
        ((jsSplit s "–")[1]? = none ∨ (jsSplit s "–")[1]? = some "") →
        (parseDateRange (some s)).endDate = some "Present")
    ∧ (∀ s seg : String, (jsSplit s "–")[1]? = some seg →
        jsToLower (jsTrim seg) = "present" →
        (parseDateRange (some s)).endDate = some "Present"
        ∧ (parseDateRange (some s)).endDateIsPresent = true)
    ∧ (∀ v : VolunteerNodeInput,
        (v.dateRangeText = none ∨ v.dateRangeText = some "") →
        (getVolunteeringRawEntry v).endDate = some "Present"
        ∧ (getVolunteeringRawEntry v).endDateIsPresent = false)
    ∧ (∀ x : ExperienceNodeInput,
        (x.dateRangeText = none ∨ x.dateRangeText = some "") →
        (getExperiencesRawEntry x).endDate = some "Present"
        ∧ (getExperiencesRawEntry x).endDateIsPresent = false) := by
  refine ⟨?_, ?_, ?_, ?_, ?_, ?_⟩
  · intro v
    simpa [getVolunteeringRawEntry] using
      parseDateRange_endDate_isSome v.dateRangeText
  · intro x
    simpa [getExperiencesRawEntry] using
      parseDateRange_endDate_isSome x.dateRangeText
  · intro s h
    exact parseDateRange_noSecondSegment s h
  · intro s seg h hp
    exact parseDateRange_present s seg h hp
  · intro v hv
    rcases hv with hv | hv <;>
      simp [getVolunteeringRawEntry, hv, parseDateRange_none.1,
        parseDateRange_none.2, parseDateRange_empty.1, parseDateRange_empty.2]
  · intro x hx
    rcases hx with hx | hx <;>
      simp [getExperiencesRawEntry, hx, parseDateRange_none.1,
        parseDateRange_none.2, parseDateRange_empty.1, parseDateRange_empty.2]

/-- Witness for C9 at concrete nodes: an entry without a date range gets
endDate "Present" with endDateIsPresent false, and a "Jan 2020 – Present"
range is recognised as ongoing. -/
theorem raw_end_date_never_null_witness :
    (getVolunteeringRawEntry ⟨some "Helper", some "Org", none, some "d"⟩).endDate ≠ none
    ∧ (getVolunteeringRawEntry ⟨some "Helper", some "Org", none, some "d"⟩).endDate = some "Present"
    ∧ (getVolunteeringRawEntry ⟨some "Helper", some "Org", none, some "d"⟩).endDateIsPresent = false
    ∧ (parseDateRange (some "Jan 2020 – Present")).endDate = some "Present"
    ∧ (parseDateRange (some "Jan 2020 – Present")).endDateIsPresent = true := by
  have h1 := raw_end_date_never_null.1 ⟨some "Helper", some "Org", none, some "d"⟩
  have h2 := raw_end_date_never_null.2.2.2.2.1 ⟨some "Helper", some "Org", none, some "d"⟩
    (Or.inl rfl)
  have h3 := raw_end_date_never_null.2.2.2.1 "Jan 2020 – Present" " Present"
    (by decide) (by decide)
  exact ⟨h1, h2.1, h2.2, h3.1, h3.2⟩

/-- Claim C10: for every skill node scraped by `getSkills`, the returned
`endorsementCount` is never null: it is the number 0 when the
endorsement-count element is absent, and otherwise the `parseInt` of the
element's trimmed text, with "0" substituted when that text is empty or
null. -/
theorem skills_endorsement_never_null :
    ∀ n : SkillNodeInput,
      (getSkillsEntry n).endorsementCount ≠ none
      ∧ (n.hasEndorsementElement = false →
          (getSkillsEntry n).endorsementCount = some (JSNum.int 0))
      ∧ (n.hasEndorsementElement = true →
          (getSkillsEntry n).endorsementCount =
            some (jsParseInt (jsOrDefault (n.endorsementText.map jsTrim) "0"))) := by
  intro n
  refine ⟨?_, ?_, ?_⟩ <;> rcases hh : n.hasEndorsementElement <;>
    simp [getSkillsEntry, hh]

/-- Witness for C10 at concrete skill nodes: a missing endorsement element
yields 0, and " 42 " parses to 42. -/
theorem skills_endorsement_never_null_witness :
    (getSkillsEntry ⟨true, some "C++", false, none⟩).endorsementCount =
      some (JSNum.int 0)
    ∧ (getSkillsEntry ⟨true, some "C++", true, some " 42 "⟩).endorsementCount =
      some (JSNum.int 42) := by
  constructor
  · exact (skills_endorsement_never_null ⟨true, some "C++", false, none⟩).2.1 rfl
  · have h := (skills_endorsement_never_null ⟨true, some "C++", true, some " 42 "⟩).2.2 rfl
    rw [h]
    decide

/-- Claim C6 (counterexample): with a live browser that has pid 7, a
successful graceful close and a FAILING tree-kill, `close` still settles
`resolved`: the kill callback's rejection is attempted only after the
trailing `resolve()` and is therefore dropped — contradicting the claim
that failures of either shutdown step are surfaced to the caller. -/
theorem close_kill_failure_not_surfaced :
    closeResult false ⟨some ⟨true, some 7⟩⟩ ⟨none, none, some "kill failed"⟩ =
      Settle.resolved
    ∧ Settle.rejectedStr (killFailedMsg 7) ∈
        (close false ⟨some ⟨true, some 7⟩⟩ ⟨none, none, some "kill failed"⟩).1
    ∧ Settle.rejectedStr (killFailedMsg 7) ≠ Settle.resolved := by
  decide

/-- Claim C6 (amended): `close(page?)` is a two-step best-effort shutdown:
an error closing the supplied page is surfaced and does not prevent the
browser-shutdown step; an error of the graceful browser close is surfaced;
whenever the browser has a pid the process tree is force-killed even after
the graceful close succeeded; but a failure of the force-kill itself is
NOT surfaced — the promise resolves before the kill callback runs. -/
theorem close_two_step (hasPage : Bool) (st : ScraperState) (env : CloseEnv) :
    (∀ e, hasPage = true → env.pageClose = some e →
       closeResult hasPage st env = Settle.rejectedErr e)
    ∧ (∀ b, st.browser = some b → env.browserClose = none →
        Event.browserClosed ∈ (close hasPage st env).2.2
        ∧ ∀ p, b.pid = some p → Event.treeKilled p ∈ (close hasPage st env).2.2)
    ∧ (∀ b e, st.browser = some b → env.browserClose = some e →
        (hasPage = false ∨ env.pageClose = none) →
        closeResult hasPage st env = Settle.rejectedErr e)
    ∧ (∀ b, st.browser = some b → env.browserClose = none →
        (hasPage = false ∨ env.pageClose = none) →
        closeResult hasPage st env = Settle.resolved) := by
  refine ⟨?_, ?_, ?_, ?_⟩
  · intro e hhp hpc
    subst hhp
    rcases st with ⟨_ | ⟨bc, bp⟩⟩
    · simp [closeResult, close, hpc]
    · rcases hbc : env.browserClose with _ | e2
      · rcases bp with _ | p
        · simp [closeResult, close, hpc, hbc]
        · rcases htk : env.treeKill with _ | s2 <;>
            simp [closeResult, close, hpc, hbc, htk]
      · simp [closeResult, close, hpc, hbc]
  · intro b hb hbc
    rcases st with ⟨br⟩
    simp only at hb
    subst hb
    rcases b with ⟨bc, bp⟩
    rcases hhp : hasPage <;> rcases hpc : env.pageClose with _ | e0 <;>
      rcases bp with _ | p <;> rcases htk : env.treeKill with _ | s2 <;>
      constructor <;>
      simp [close, hbc, hpc, htk]
  · intro b e hb hbc hok
    rcases st with ⟨br⟩
    simp only at hb
    subst hb
    have hps : (hasPage = false ∧ env.pageClose = env.pageClose) ∨
        env.pageClose = none := by
      rcases hok with h | h
      · exact Or.inl ⟨h, rfl⟩
      · exact Or.inr h
    rcases hhp : hasPage
    · simp [closeResult, close, hbc]
    · rcases hok with h | h
      · rw [hhp] at h
        simp at h
      · simp [closeResult, close, hbc, h]
  · intro b hb hbc hok
    rcases st with ⟨br⟩
    simp only at hb
    subst hb
    rcases b with ⟨bc, bp⟩
    rcases hhp : hasPage
    · rcases bp with _ | p
      · simp [closeResult, close, hbc]
      · rcases htk : env.treeKill with _ | s2 <;>
          simp [closeResult, close, hbc, htk]
    · rcases hok with h | h
      · rw [hhp] at h
        simp at h
      · rcases bp with _ | p
        · simp [closeResult, close, hbc, h]
        · rcases htk : env.treeKill with _ | s2 <;>
            simp [closeResult, close, hbc, htk, h]

/-- Witness for C6 (amended) at concrete inputs: a failing page close is
surfaced while the browser step still runs and the tree is killed; with a
failing tree-kill the call still resolves. -/
theorem close_two_step_witness :
    closeResult true ⟨some ⟨true, some 9⟩⟩
      ⟨some (JSError.error "page boom"), none, none⟩ =
      Settle.rejectedErr (JSError.error "page boom")
    ∧ Event.browserClosed ∈
        (close true ⟨some ⟨true, some 9⟩⟩
          ⟨some (JSError.error "page boom"), none, none⟩).2.2
    ∧ Event.treeKilled 9 ∈
        (close true ⟨some ⟨true, some 9⟩⟩
          ⟨some (JSError.error "page boom"), none, none⟩).2.2
    ∧ closeResult false ⟨some ⟨true, some 9⟩⟩ ⟨none, none, some "kill"⟩ =
        Settle.resolved := by
  have h := close_two_step true ⟨some ⟨true, some 9⟩⟩
    ⟨some (JSError.error "page boom"), none, none⟩
  have h2 := close_two_step false ⟨some ⟨true, some 9⟩⟩ ⟨none, none, some "kill"⟩
  exact ⟨h.1 _ rfl rfl, (h.2.1 _ rfl rfl).1, (h.2.1 _ rfl rfl).2 9 rfl,
    h2.2.2.2 _ rfl rfl (Or.inl rfl)⟩

/-- Claim C7: the constructor validates in the fixed order token presence,
token type, user-agent type, keepAlive type, timeout type, headless type,
failing with the configuration error of the first check that trips, and it
performs no browser interaction (its event trace is empty); a
configuration with a non-empty string token and correctly typed (or
omitted) optional fields never throws, and omitted fields take the
documented defaults (keepAlive false, timeout 10000, headless true, the
fixed user agent). -/
theorem construct_validation (u : ScraperUserDefinedOptions) :
    (construct u).2 = []
    ∧ ((construct u).1 = Except.error cookieRequiredMsg ↔
        cookiePresenceOk u = false)
    ∧ ((construct u).1 = Except.error cookieStringMsg ↔
        cookiePresenceOk u = true ∧ cookieTypeBad u = true)
    ∧ ((construct u).1 = Except.error userAgentStringMsg ↔
        cookiePresenceOk u = true ∧ cookieTypeBad u = false ∧
        userAgentBad u = true)
    ∧ ((construct u).1 = Except.error keepAliveBooleanMsg ↔
        cookiePresenceOk u = true ∧ cookieTypeBad u = false ∧
        userAgentBad u = false ∧ keepAliveBad u = true)
    ∧ ((construct u).1 = Except.error timeoutNumberMsg ↔
        cookiePresenceOk u = true ∧ cookieTypeBad u = false ∧
        userAgentBad u = false ∧ keepAliveBad u = false ∧ timeoutBad u = true)
    ∧ ((construct u).1 = Except.error headlessBooleanMsg ↔
        cookiePresenceOk u = true ∧ cookieTypeBad u = false ∧
        userAgentBad u = false ∧ keepAliveBad u = false ∧
        timeoutBad u = false ∧ headlessBad u = true)
    ∧ ((construct u).1 = Except.ok (objectAssign defaultOptions u) ↔
        cookiePresenceOk u = true ∧ cookieTypeBad u = false ∧
        userAgentBad u = false ∧ keepAliveBad u = false ∧
        timeoutBad u = false ∧ headlessBad u = false)
    ∧ (∀ s : String, s ≠ "" → u.sessionCookieValue = some (JSValue.str s) →
        (u.userAgent = none ∨ ∃ s2, u.userAgent = some (JSValue.str s2)) →
        (u.keepAlive = none ∨ ∃ b, u.keepAlive = some (JSValue.bool b)) →
        (u.timeout = none ∨ ∃ n, u.timeout = some (JSValue.num n)) →
        (u.headless = none ∨ ∃ b, u.headless = some (JSValue.bool b)) →
        (construct u).1 = Except.ok (objectAssign defaultOptions u))
    ∧ (u.keepAlive = none →
        (objectAssign defaultOptions u).keepAlive = JSValue.bool false)
    ∧ (u.timeout = none →
        (objectAssign defaultOptions u).timeout = JSValue.num 10000)
    ∧ (u.headless = none →
        (objectAssign defaultOptions u).headless = JSValue.bool true)
    ∧ (u.userAgent = none →
        (objectAssign defaultOptions u).userAgent = JSValue.str defaultUserAgent) := by
  have d12 : cookieRequiredMsg ≠ cookieStringMsg := by decide
  have d13 : cookieRequiredMsg ≠ userAgentStringMsg := by decide
  have d14 : cookieRequiredMsg ≠ keepAliveBooleanMsg := by decide
  have d15 : cookieRequiredMsg ≠ timeoutNumberMsg := by decide
  have d16 : cookieRequiredMsg ≠ headlessBooleanMsg := by decide
  have d21 : cookieStringMsg ≠ cookieRequiredMsg := by decide
  have d23 : cookieStringMsg ≠ userAgentStringMsg := by decide
  have d24 : cookieStringMsg ≠ keepAliveBooleanMsg := by decide
  have d25 : cookieStringMsg ≠ timeoutNumberMsg := by decide
  have d26 : cookieStringMsg ≠ headlessBooleanMsg := by decide
  have d31 : userAgentStringMsg ≠ cookieRequiredMsg := by decide
  have d32 : userAgentStringMsg ≠ cookieStringMsg := by decide
  have d34 : userAgentStringMsg ≠ keepAliveBooleanMsg := by decide
  have d35 : userAgentStringMsg ≠ timeoutNumberMsg := by decide
  have d36 : userAgentStringMsg ≠ headlessBooleanMsg := by decide
  have d41 : keepAliveBooleanMsg ≠ cookieRequiredMsg := by decide
  have d42 : keepAliveBooleanMsg ≠ cookieStringMsg := by decide
  have d43 : keepAliveBooleanMsg ≠ userAgentStringMsg := by decide
  have d45 : keepAliveBooleanMsg ≠ timeoutNumberMsg := by decide
  have d46 : keepAliveBooleanMsg ≠ headlessBooleanMsg := by decide
  have d51 : timeoutNumberMsg ≠ cookieRequiredMsg := by decide
  have d52 : timeoutNumberMsg ≠ cookieStringMsg := by decide
  have d53 : timeoutNumberMsg ≠ userAgentStringMsg := by decide
  have d54 : timeoutNumberMsg ≠ keepAliveBooleanMsg := by decide
  have d56 : timeoutNumberMsg ≠ headlessBooleanMsg := by decide
  have d61 : headlessBooleanMsg ≠ cookieRequiredMsg := by decide
  have d62 : headlessBooleanMsg ≠ cookieStringMsg := by decide
  have d63 : headlessBooleanMsg ≠ userAgentStringMsg := by decide
  have d64 : headlessBooleanMsg ≠ keepAliveBooleanMsg := by decide
  have d65 : headlessBooleanMsg ≠ timeoutNumberMsg := by decide
  have htrace : (construct u).2 = [] := by
    cases h1 : cookiePresenceOk u <;> cases h2 : cookieTypeBad u <;>
      cases h3 : userAgentBad u <;> cases h4 : keepAliveBad u <;>
      cases h5 : timeoutBad u <;> cases h6 : headlessBad u <;>
      simp [construct, h1, h2, h3, h4, h5, h6]
  have hiffs : ((construct u).1 = Except.error cookieRequiredMsg ↔
        cookiePresenceOk u = false)
      ∧ ((construct u).1 = Except.error cookieStringMsg ↔
          cookiePresenceOk u = true ∧ cookieTypeBad u = true)
      ∧ ((construct u).1 = Except.error userAgentStringMsg ↔
          cookiePresenceOk u = true ∧ cookieTypeBad u = false ∧
          userAgentBad u = true)
      ∧ ((construct u).1 = Except.error keepAliveBooleanMsg ↔
          cookiePresenceOk u = true ∧ cookieTypeBad u = false ∧
          userAgentBad u = false ∧ keepAliveBad u = true)
      ∧ ((construct u).1 = Except.error timeoutNumberMsg ↔
          cookiePresenceOk u = true ∧ cookieTypeBad u = false ∧
          userAgentBad u = false ∧ keepAliveBad u = false ∧ timeoutBad u = true)
      ∧ ((construct u).1 = Except.error headlessBooleanMsg ↔
          cookiePresenceOk u = true ∧ cookieTypeBad u = false ∧
          userAgentBad u = false ∧ keepAliveBad u = false ∧
          timeoutBad u = false ∧ headlessBad u = true)
      ∧ ((construct u).1 = Except.ok (objectAssign defaultOptions u) ↔
          cookiePresenceOk u = true ∧ cookieTypeBad u = false ∧
          userAgentBad u = false ∧ keepAliveBad u = false ∧
          timeoutBad u = false ∧ headlessBad u = false) := by
    cases h1 : cookiePresenceOk u <;> cases h2 : cookieTypeBad u <;>
      cases h3 : userAgentBad u <;> cases h4 : keepAliveBad u <;>
      cases h5 : timeoutBad u <;> cases h6 : headlessBad u <;>
      simp [construct, h1, h2, h3, h4, h5, h6, d12, d13, d14, d15, d16,
        d21, d23, d24, d25, d26, d31, d32, d34, d35, d36, d41, d42, d43,
        d45, d46, d51, d52, d53, d54, d56, d61, d62, d63, d64, d65]
  have hvalid : ∀ s : String, s ≠ "" →
      u.sessionCookieValue = some (JSValue.str s) →
      (u.userAgent = none ∨ ∃ s2, u.userAgent = some (JSValue.str s2)) →
      (u.keepAlive = none ∨ ∃ b, u.keepAlive = some (JSValue.bool b)) →
      (u.timeout = none ∨ ∃ n, u.timeout = some (JSValue.num n)) →
      (u.headless = none ∨ ∃ b, u.headless = some (JSValue.bool b)) →
      (construct u).1 = Except.ok (objectAssign defaultOptions u) := by
    intro s hs hcv hua hka hto hhl
    have hb1 : cookiePresenceOk u = true := by
      simp [cookiePresenceOk, jsTruthy, JSValue.truthy, hcv, hs]
    have hb2 : cookieTypeBad u = false := by
      simp [cookieTypeBad, jsTruthy, JSValue.truthy, JSValue.isString, hcv]
    have hb3 : userAgentBad u = false := by
      rcases hua with h | ⟨s2, h⟩ <;>
        simp [userAgentBad, jsTruthy, JSValue.truthy, JSValue.isString, h]
    have hb4 : keepAliveBad u = false := by
      rcases hka with h | ⟨b, h⟩ <;>
        simp [keepAliveBad, JSValue.isBoolean, h]
    have hb5 : timeoutBad u = false := by
      rcases hto with h | ⟨n, h⟩ <;>
        simp [timeoutBad, JSValue.isNumber, h]
    have hb6 : headlessBad u = false := by
      rcases hhl with h | ⟨b, h⟩ <;>
        simp [headlessBad, JSValue.isBoolean, h]
    simp [construct, hb1, hb2, hb3, hb4, hb5, hb6]
  refine ⟨htrace, hiffs.1, hiffs.2.1, hiffs.2.2.1, hiffs.2.2.2.1,
    hiffs.2.2.2.2.1, hiffs.2.2.2.2.2.1, hiffs.2.2.2.2.2.2, hvalid,
    ?_, ?_, ?_, ?_⟩
  · intro h
    simp [objectAssign, defaultOptions, h]
  · intro h
    simp [objectAssign, defaultOptions, h]
  · intro h
    simp [objectAssign, defaultOptions, h]
  · intro h
    simp [objectAssign, defaultOptions, h]

/-- Witness for C7 at concrete configurations: a token-only config
succeeds with all defaults; a config with a numeric timeout string fails
with the timeout configuration error; a token-less config fails with the
required-token error. -/
theorem construct_validation_witness :
    (construct { sessionCookieValue := some (JSValue.str "tok") }).1 =
      Except.ok (objectAssign defaultOptions
        { sessionCookieValue := some (JSValue.str "tok") })
    ∧ (objectAssign defaultOptions
        { sessionCookieValue := some (JSValue.str "tok") }).keepAlive =
      JSValue.bool false
    ∧ (objectAssign defaultOptions
        { sessionCookieValue := some (JSValue.str "tok") }).timeout =
      JSValue.num 10000
    ∧ (construct { sessionCookieValue := some (JSValue.str "tok"), timeout := some (JSValue.str "fast") }).1 =
      Except.error timeoutNumberMsg
    ∧ (construct {}).1 = Except.error cookieRequiredMsg := by
  have h1 := construct_validation { sessionCookieValue := some (JSValue.str "tok") }
  have h2 := construct_validation { sessionCookieValue := some (JSValue.str "tok"), timeout := some (JSValue.str "fast") }
  have h3 := construct_validation {}
  refine ⟨?_, ?_, ?_, ?_, ?_⟩
  · exact h1.2.2.2.2.2.2.2.2.1 "tok" (by decide) rfl (Or.inl rfl) (Or.inl rfl)
      (Or.inl rfl) (Or.inl rfl)
  · exact h1.2.2.2.2.2.2.2.2.2.1 rfl
  · exact h1.2.2.2.2.2.2.2.2.2.2.1 rfl
  · exact (h2.2.2.2.2.2.1).mpr ⟨by decide, by decide, by decide, by decide, by decide⟩
  · exact (h3.2.1).mpr (by decide)

/-- Claim C1: for every run whose primary-page phase succeeds but in which
at least one of the three concurrent detail-page tasks (experiences,
education, skills) fails, `run` returns no Result aggregate: its promise
rejects, no `.ok` value carrying the other tasks' results is returned, and
the whole session is terminated. -/
theorem run_all_or_nothing {π ε δ ν σ : Type} (pid : Option Nat)
    (opts : ScraperOptions) (url : String) (hu : url ≠ "")
    (hi : jsIncludes url "linkedin.com/" = true) (prof : π) (vol : List ν)
    (te1 : TaskEnv ε) (te2 : TaskEnv δ) (te3 : TaskEnv σ)
    (hfail : (te1.failsB || te2.failsB || te3.failsB) = true) :
    exceptIsError (run ⟨some ⟨true, pid⟩⟩ opts url
      ⟨none, none, none, Except.ok prof, Except.ok vol, te1, te2, te3⟩).1 = true
    ∧ isTerminatedB (run ⟨some ⟨true, pid⟩⟩ opts url
      ⟨none, none, none, Except.ok prof, Except.ok vol, te1, te2, te3⟩).2.1 = true
    ∧ ∀ res, (run ⟨some ⟨true, pid⟩⟩ opts url
      ⟨none, none, none, Except.ok prof, Except.ok vol, te1, te2, te3⟩).1 ≠
        Except.ok res := by
  have hallok : RunEnv.allOkB
      (⟨none, none, none, Except.ok prof, Except.ok vol, te1, te2, te3⟩ :
        RunEnv π ε δ ν σ) = false := by
    cases hf1 : te1.failsB <;> cases hf2 : te2.failsB <;>
      cases hf3 : te3.failsB <;> simp_all [RunEnv.allOkB]
  have herr : exceptIsError (run ⟨some ⟨true, pid⟩⟩ opts url
      ⟨none, none, none, Except.ok prof, Except.ok vol, te1, te2, te3⟩).1 = true := by
    rw [run_isError]
    simp [hallok]
  refine ⟨herr, run_error_terminated _ _ _ _ (by simp) hu hi herr, ?_⟩
  intro res hok
  rw [hok] at herr
  simp [exceptIsError] at herr

/-- Witness for C1: a concrete run whose experience task times out rejects
and terminates the session. -/
theorem run_all_or_nothing_witness :
    exceptIsError (run exampleReadyState exampleOptions exampleUrl
      ⟨none, none, none, Except.ok (), Except.ok ([] : List Unit),
       ⟨none, some (JSError.error "Navigation timeout of 10000 ms exceeded"),
        Except.ok ([] : List Unit)⟩, exampleTask, exampleTask⟩).1 = true
    ∧ isTerminatedB (run exampleReadyState exampleOptions exampleUrl
      ⟨none, none, none, Except.ok (), Except.ok ([] : List Unit),
       ⟨none, some (JSError.error "Navigation timeout of 10000 ms exceeded"),
        Except.ok ([] : List Unit)⟩, exampleTask, exampleTask⟩).2.1 = true := by
  have h := run_all_or_nothing (some 7) exampleOptions exampleUrl (by decide)
    (by decide) () ([] : List Unit)
    ⟨none, some (JSError.error "Navigation timeout of 10000 ms exceeded"),
     Except.ok ([] : List Unit)⟩ exampleTask exampleTask (by decide)
  exact ⟨h.1, h.2.1⟩

/-- Claim C2: after a successful `run`, if `keepAlive` is true only the
pages are closed — the browser is neither closed nor killed, the handle
stays in the same ready state, and a second `run` on it succeeds without
launching a new browser; if `keepAlive` is false the whole session is
terminated (the run still returns its aggregate), the handle is
Terminated, and every subsequent `run` on it fails. -/
theorem run_keep_alive {π ε δ ν σ : Type} (pid : Option Nat)
    (opts : ScraperOptions) (url : String) (hu : url ≠ "")
    (hi : jsIncludes url "linkedin.com/" = true)
    (prof : π) (vol : List ν) (es : List ε) (ed : List δ) (sk : List σ) :
    (opts.keepAlive = true →
      (run ⟨some ⟨true, pid⟩⟩ opts url
        ⟨none, none, none, Except.ok prof, Except.ok vol,
         ⟨none, none, Except.ok es⟩, ⟨none, none, Except.ok ed⟩,
         ⟨none, none, Except.ok sk⟩⟩).1 = Except.ok ⟨prof, es, ed, vol, sk⟩
      ∧ (run ⟨some ⟨true, pid⟩⟩ opts url
        ⟨none, none, none, Except.ok prof, Except.ok vol,
         ⟨none, none, Except.ok es⟩, ⟨none, none, Except.ok ed⟩,
         ⟨none, none, Except.ok sk⟩⟩).2.1 = ⟨some ⟨true, pid⟩⟩
      ∧ Event.browserClosed ∉ (run ⟨some ⟨true, pid⟩⟩ opts url
        ⟨none, none, none, Except.ok prof, Except.ok vol,
         ⟨none, none, Except.ok es⟩, ⟨none, none, Except.ok ed⟩,
         ⟨none, none, Except.ok sk⟩⟩).2.2
      ∧ (∀ q, Event.treeKilled q ∉ (run ⟨some ⟨true, pid⟩⟩ opts url
        ⟨none, none, none, Except.ok prof, Except.ok vol,
         ⟨none, none, Except.ok es⟩, ⟨none, none, Except.ok ed⟩,
         ⟨none, none, Except.ok sk⟩⟩).2.2)
      ∧ (run (run ⟨some ⟨true, pid⟩⟩ opts url
          ⟨none, none, none, Except.ok prof, Except.ok vol,
           ⟨none, none, Except.ok es⟩, ⟨none, none, Except.ok ed⟩,
           ⟨none, none, Except.ok sk⟩⟩).2.1 opts url
          ⟨none, none, none, Except.ok prof, Except.ok vol,
           ⟨none, none, Except.ok es⟩, ⟨none, none, Except.ok ed⟩,
           ⟨none, none, Except.ok sk⟩⟩).1 = Except.ok ⟨prof, es, ed, vol, sk⟩
      ∧ Event.browserLaunched ∉ (run (run ⟨some ⟨true, pid⟩⟩ opts url
          ⟨none, none, none, Except.ok prof, Except.ok vol,
           ⟨none, none, Except.ok es⟩, ⟨none, none, Except.ok ed⟩,
           ⟨none, none, Except.ok sk⟩⟩).2.1 opts url
          ⟨none, none, none, Except.ok prof, Except.ok vol,
           ⟨none, none, Except.ok es⟩, ⟨none, none, Except.ok ed⟩,
           ⟨none, none, Except.ok sk⟩⟩).2.2)
    ∧ (opts.keepAlive = false →
      (run ⟨some ⟨true, pid⟩⟩ opts url
        ⟨none, none, none, Except.ok prof, Except.ok vol,
         ⟨none, none, Except.ok es⟩, ⟨none, none, Except.ok ed⟩,
         ⟨none, none, Except.ok sk⟩⟩).1 = Except.ok ⟨prof, es, ed, vol, sk⟩
      ∧ isTerminatedB (run ⟨some ⟨true, pid⟩⟩ opts url
        ⟨none, none, none, Except.ok prof, Except.ok vol,
         ⟨none, none, Except.ok es⟩, ⟨none, none, Except.ok ed⟩,
         ⟨none, none, Except.ok sk⟩⟩).2.1 = true
      ∧ ∀ (url2 : String) (env2 : RunEnv π ε δ ν σ),
          exceptIsError (run (run ⟨some ⟨true, pid⟩⟩ opts url
            ⟨none, none, none, Except.ok prof, Except.ok vol,
             ⟨none, none, Except.ok es⟩, ⟨none, none, Except.ok ed⟩,
             ⟨none, none, Except.ok sk⟩⟩).2.1 opts url2 env2).1 = true) := by
  constructor
  · intro hka
    have heq := run_happy_keepAlive pid opts hka url hu hi prof vol es ed sk
    have h1 : (run ⟨some ⟨true, pid⟩⟩ opts url
        ⟨none, none, none, Except.ok prof, Except.ok vol,
         ⟨none, none, Except.ok es⟩, ⟨none, none, Except.ok ed⟩,
         ⟨none, none, Except.ok sk⟩⟩).1 = Except.ok ⟨prof, es, ed, vol, sk⟩ := by
      rw [heq]
    have hst : (run ⟨some ⟨true, pid⟩⟩ opts url
        ⟨none, none, none, Except.ok prof, Except.ok vol,
         ⟨none, none, Except.ok es⟩, ⟨none, none, Except.ok ed⟩,
         ⟨none, none, Except.ok sk⟩⟩).2.1 = ⟨some ⟨true, pid⟩⟩ := by
      rw [heq]
    have htr := congrArg (fun x => x.2.2) heq
    simp only at htr
    refine ⟨h1, hst, ?_, ?_, ?_, ?_⟩
    · rw [htr]
      simp
    · intro q
      rw [htr]
      simp
    · rw [hst, h1]
    · rw [hst]
      exact run_no_launch _ _ _ _
  · intro hka
    have h := run_happy_noKeepAlive pid opts hka url hu hi prof vol es ed sk
    refine ⟨h.1, ?_, ?_⟩
    · rw [h.2.1]
      simp [isTerminatedB]
    · intro url2 env2
      rw [h.2.1, run_isError]
      simp [isReadyB]

/-- Witness for C2: a concrete keep-alive run succeeds and leaves the
handle ready, and a concrete non-keep-alive run terminates the session,
after which a further run fails. -/
theorem run_keep_alive_witness :
    (run exampleReadyState exampleOptions exampleUrl exampleRunEnv).1 =
      Except.ok ⟨(), [], [], [], []⟩
    ∧ (run exampleReadyState exampleOptions exampleUrl exampleRunEnv).2.1 =
      exampleReadyState
    ∧ isTerminatedB (run exampleReadyState
        { exampleOptions with keepAlive := false } exampleUrl exampleRunEnv).2.1 = true
    ∧ exceptIsError (run (run exampleReadyState
        { exampleOptions with keepAlive := false } exampleUrl exampleRunEnv).2.1
        { exampleOptions with keepAlive := false } exampleUrl exampleRunEnv).1 = true := by
  have h1 := @run_keep_alive Unit Unit Unit Unit Unit (some 7) exampleOptions
    exampleUrl (by decide) (by decide) () ([] : List Unit) ([] : List Unit)
    ([] : List Unit) ([] : List Unit)
  have h2 := @run_keep_alive Unit Unit Unit Unit Unit (some 7)
    { exampleOptions with keepAlive := false } exampleUrl
    (by decide) (by decide) () ([] : List Unit) ([] : List Unit)
    ([] : List Unit) ([] : List Unit)
  exact ⟨(h1.1 rfl).1, (h1.1 rfl).2.1, (h2.2 rfl).2.1, (h2.2 rfl).2.2 exampleUrl exampleRunEnv⟩

/-- Claim C3 (counterexample): in a concrete successful run with the
configured timeout 10000, the experience detail-page navigation is issued
with `networkidle2` and NO timeout option — so not every navigation call
carries the configured timeout. -/
theorem navigation_timeouts_cex :
    Event.navigated PageKind.experience (exampleUrl ++ "/details/experience")
        { waitUntil := WaitUntil.networkidle2, timeout := none } ∈
      (run exampleReadyState exampleOptions exampleUrl exampleRunEnv).2.2
    ∧ exampleOptions.timeout = 10000
    ∧ (none : Option Int) ≠ some exampleOptions.timeout := by
  decide

/-- Claim C3 (amended): the login-check navigation and the primary
profile-page navigation carry the configured timeout
(`timeout: options.timeout` with `domcontentloaded`), while the three
detail-page navigations carry `networkidle2` and no explicit timeout (the
engine default applies); each navigation target is issued at most once
(no retry), and a failed navigation — primary or detail — fails the
enclosing run. -/
theorem navigation_timeouts {π ε δ ν σ : Type} :
    (∀ (st : ScraperState) (opts : ScraperOptions) (lenv : LoginCheckEnv),
       (checkIfLoggedIn st opts lenv).2.2.all (loginTraceOkB opts) = true)
    ∧ (∀ (st : ScraperState) (opts : ScraperOptions) (url : String)
        (env : RunEnv π ε δ ν σ),
       (run st opts url env).2.2.all (runTraceOkB url opts) = true)
    ∧ (∀ (st : ScraperState) (opts : ScraperOptions) (url : String)
        (env : RunEnv π ε δ ν σ) (k : PageKind),
       navCount k (run st opts url env).2.2 ≤ 1)
    ∧ (∀ (st : ScraperState) (opts : ScraperOptions) (url : String)
        (env : RunEnv π ε δ ν σ), env.primaryNav.isSome = true →
       exceptIsError (run st opts url env).1 = true)
    ∧ (∀ (st : ScraperState) (opts : ScraperOptions) (url : String)
        (env : RunEnv π ε δ ν σ),
       (env.expTask.nav.isSome || env.eduTask.nav.isSome ||
         env.skillsTask.nav.isSome) = true →
       exceptIsError (run st opts url env).1 = true) := by
  refine ⟨checkIfLoggedIn_trace_ok, run_trace_ok, run_navCount, ?_, ?_⟩
  · intro st opts url env h
    rw [run_isError]
    have hok : env.allOkB = false := by
      rcases hx : env.primaryNav with _ | e
      · rw [hx] at h
        simp at h
      · simp [RunEnv.allOkB, hx]
    simp [hok]
  · intro st opts url env h
    rw [run_isError]
    have hok : env.allOkB = false := by
      cases hx1 : env.expTask.nav.isSome <;>
        cases hx2 : env.eduTask.nav.isSome <;>
        cases hx3 : env.skillsTask.nav.isSome <;>
        simp_all [RunEnv.allOkB, TaskEnv.failsB]
    simp [hok]

/-- Witness for C3 (amended) at concrete inputs: the trace invariant and
navigation-count bound hold on a concrete successful run, and a concrete
run whose primary navigation times out rejects. -/
theorem navigation_timeouts_witness :
    (run exampleReadyState exampleOptions exampleUrl exampleRunEnv).2.2.all
      (runTraceOkB exampleUrl exampleOptions) = true
    ∧ navCount PageKind.experience
        (run exampleReadyState exampleOptions exampleUrl exampleRunEnv).2.2 ≤ 1
    ∧ exceptIsError (run exampleReadyState exampleOptions exampleUrl
        { exampleRunEnv with
            primaryNav := some (JSError.error "Navigation timeout of 10000 ms exceeded") }).1 = true
    ∧ exceptIsError (run exampleReadyState exampleOptions exampleUrl
        { exampleRunEnv with
            expTask := ⟨none, some (JSError.error "Navigation timeout of 10000 ms exceeded"),
              Except.ok ([] : List Unit)⟩ }).1 = true := by
  have h := @navigation_timeouts Unit Unit Unit Unit Unit
  exact ⟨h.2.1 _ _ _ _, h.2.2.1 _ _ _ _ _, h.2.2.2.1 _ _ _ _ (by decide),
    h.2.2.2.2 _ _ _ _ (by decide)⟩

/-- Claim C5: `checkIfLoggedIn` fails with `SessionExpired` exactly when
the final URL after navigating to the login entry point still ends in
"/login", and returns normally otherwise; the verification page is closed
before returning on both paths; and when verification fails during
`setup()`, the session auto-terminates, so a subsequent `run` on the same
handle fails itself instead of silently launching a new browser (its trace
contains no browser launch). -/
theorem check_if_logged_in_spec {π ε δ ν σ : Type} :
    (∀ (pid : Option Nat) (opts : ScraperOptions) (u : String),
       checkIfLoggedIn ⟨some ⟨true, pid⟩⟩ opts ⟨none, none, u⟩ =
         ((if jsEndsWith u "/login" then
             Except.error (JSError.sessionExpired sessionExpiredMsg)
           else Except.ok ()),
          ⟨some ⟨true, pid⟩⟩,
          [Event.pageCreated PageKind.loginCheck,
           Event.navigated PageKind.loginCheck loginUrl (loginNavOptions opts),
           Event.pageClosed PageKind.loginCheck]))
    ∧ (∀ (pid : Option Nat) (opts : ScraperOptions) (u : String),
        ((checkIfLoggedIn ⟨some ⟨true, pid⟩⟩ opts ⟨none, none, u⟩).1 =
            Except.error (JSError.sessionExpired sessionExpiredMsg) ↔
          jsEndsWith u "/login" = true)
        ∧ Event.pageClosed PageKind.loginCheck ∈
            (checkIfLoggedIn ⟨some ⟨true, pid⟩⟩ opts ⟨none, none, u⟩).2.2)
    ∧ (∀ (pid : Option Nat) (opts : ScraperOptions) (u : String),
        jsEndsWith u "/login" = true →
        exceptIsError (setup initialState opts ⟨none, pid, ⟨none, none, u⟩⟩).1 = true
        ∧ isTerminatedB
            (setup initialState opts ⟨none, pid, ⟨none, none, u⟩⟩).2.1 = true
        ∧ ∀ (url : String) (env : RunEnv π ε δ ν σ),
            exceptIsError (run
              (setup initialState opts ⟨none, pid, ⟨none, none, u⟩⟩).2.1
              opts url env).1 = true
            ∧ Event.browserLaunched ∉ (run
                (setup initialState opts ⟨none, pid, ⟨none, none, u⟩⟩).2.1
                opts url env).2.2) := by
  refine ⟨checkIfLoggedIn_eq, ?_, ?_⟩
  · intro pid opts u
    have heq := checkIfLoggedIn_eq pid opts u
    constructor
    · rw [heq]
      by_cases hl : jsEndsWith u "/login" = true <;> simp [hl]
    · rw [heq]
      simp
  · intro pid opts u hl
    have hsf := setup_failedVerify pid opts u hl
    refine ⟨?_, ?_, ?_⟩
    · rw [hsf.1]
      rfl
    · rw [hsf.2]
      simp [isTerminatedB]
    · intro url env
      constructor
      · rw [hsf.2, run_isError]
        simp [isReadyB]
      · exact run_no_launch _ _ _ _

/-- Witness for C5 at concrete inputs: a final URL still ending in /login
fails the check with SessionExpired; a redirected URL passes; after a
failed setup, a run on the same handle rejects. -/
theorem check_if_logged_in_spec_witness :
    ((checkIfLoggedIn exampleReadyState exampleOptions
        ⟨none, none, loginUrl⟩).1 =
      Except.error (JSError.sessionExpired sessionExpiredMsg))
    ∧ ((checkIfLoggedIn exampleReadyState exampleOptions
        ⟨none, none, "https://www.linkedin.com/feed/"⟩).1 = Except.ok ())
    ∧ exceptIsError (run
        (setup initialState exampleOptions exampleFailedVerifySetupEnv).2.1
        exampleOptions exampleUrl exampleRunEnv).1 = true := by
  have h := @check_if_logged_in_spec Unit Unit Unit Unit Unit
  refine ⟨?_, ?_, ?_⟩
  · exact ((h.2.1 (some 7) exampleOptions loginUrl).1).mpr (by decide)
  · have heq := h.1 (some 7) exampleOptions "https://www.linkedin.com/feed/"
    rw [show checkIfLoggedIn exampleReadyState exampleOptions
        ⟨none, none, "https://www.linkedin.com/feed/"⟩ =
      checkIfLoggedIn ⟨some ⟨true, some 7⟩⟩ exampleOptions
        ⟨none, none, "https://www.linkedin.com/feed/"⟩ from rfl, heq]
    decide
  · exact ((h.2.2 (some 7) exampleOptions loginUrl (by decide)).2.2
      exampleUrl exampleRunEnv).1

/-- Claim C8 (counterexample): after a `setup` that launched a browser but
failed login verification, the browser field is still set, so a subsequent
`run` with a valid profile URL passes all three guard checks and fails
only inside page provisioning with the engine's protocol error — not with
any of the three validation errors the claim requires for every call where
setup has not succeeded. -/
theorem run_preconditions_cex :
    exceptIsError (setup initialState exampleOptions
      exampleFailedVerifySetupEnv).1 = true
    ∧ (run (setup initialState exampleOptions exampleFailedVerifySetupEnv).2.1
        exampleOptions exampleUrl exampleRunEnv).1 =
      Except.error (JSError.error targetClosedMsg)
    ∧ JSError.error targetClosedMsg ≠
      JSError.error "Browser is not set. Please run the setup method first."
    ∧ JSError.error targetClosedMsg ≠ JSError.error "No profileUrl given."
    ∧ JSError.error targetClosedMsg ≠
      JSError.error "The given URL to scrape is not a linkedin.com url." := by
  decide

/-- Claim C8 (amended): `run` fails with a validation error before any
page creation or navigation when the browser field is unset (setup never
launched), when the profile URL is empty, or when it does not contain
"linkedin.com/" — in those cases the state is untouched and the trace
empty.  But when setup launched a browser and then failed (handle set yet
terminated), `run` passes the guards and instead fails during page
provisioning with a non-validation engine error — still before any
navigation is issued. -/
theorem run_preconditions {π ε δ ν σ : Type} :
    (∀ (st : ScraperState) (opts : ScraperOptions) (url : String)
       (env : RunEnv π ε δ ν σ), st.browser = none →
       run st opts url env =
         (Except.error (JSError.error
           "Browser is not set. Please run the setup method first."), st, []))
    ∧ (∀ (st : ScraperState) (opts : ScraperOptions) (url : String)
        (env : RunEnv π ε δ ν σ) (b : BrowserProc), st.browser = some b →
        url = "" →
        run st opts url env =
          (Except.error (JSError.error "No profileUrl given."), st, []))
    ∧ (∀ (st : ScraperState) (opts : ScraperOptions) (url : String)
        (env : RunEnv π ε δ ν σ) (b : BrowserProc), st.browser = some b →
        url ≠ "" → jsIncludes url "linkedin.com/" = false →
        run st opts url env =
          (Except.error (JSError.error
            "The given URL to scrape is not a linkedin.com url."), st, []))
    ∧ (∀ (opts : ScraperOptions) (url : String) (env : RunEnv π ε δ ν σ)
        (bp : Option Nat), url ≠ "" → jsIncludes url "linkedin.com/" = true →
        (run ⟨some ⟨false, bp⟩⟩ opts url env).1 =
          Except.error (JSError.error targetClosedMsg)
        ∧ ∀ (k : PageKind) (u2 : String) (o : NavOptions),
            Event.navigated k u2 o ∉ (run ⟨some ⟨false, bp⟩⟩ opts url env).2.2) := by
  refine ⟨?_, ?_, ?_, ?_⟩
  · intro st opts url env h
    rcases st with ⟨br⟩
    simp only at h
    subst h
    rfl
  · intro st opts url env b hb hu
    rcases st with ⟨br⟩
    simp only at hb
    subst hb
    subst hu
    rfl
  · intro st opts url env b hb hu hi
    rcases st with ⟨br⟩
    simp only at hb
    subst hb
    simp [run, hu, hi]
  · intro opts url env bp hu hi
    constructor
    · rcases bp with _ | p <;>
        simp [run, runBody, createPage, closeEffect, disconnect, hu, hi]
    · intro k u2 o
      rcases bp with _ | p <;>
        simp [run, runBody, createPage, closeEffect, disconnect, hu, hi]

/-- Witness for C8 (amended) at concrete inputs: a fresh handle rejects
with the browser guard; an empty URL and a non-LinkedIn URL reject with
their validation errors; a terminated handle rejects with the protocol
error. -/
theorem run_preconditions_witness :
    (run initialState exampleOptions exampleUrl exampleRunEnv).1 =
      Except.error (JSError.error
        "Browser is not set. Please run the setup method first.")
    ∧ (run exampleReadyState exampleOptions "" exampleRunEnv).1 =
      Except.error (JSError.error "No profileUrl given.")
    ∧ (run exampleReadyState exampleOptions "https://example.com/profile"
        exampleRunEnv).1 =
      Except.error (JSError.error
        "The given URL to scrape is not a linkedin.com url.")
    ∧ (run ⟨some ⟨false, some 7⟩⟩ exampleOptions exampleUrl exampleRunEnv).1 =
      Except.error (JSError.error targetClosedMsg) := by
  have h := @run_preconditions Unit Unit Unit Unit Unit
  refine ⟨?_, ?_, ?_, ?_⟩
  · have := h.1 initialState exampleOptions exampleUrl exampleRunEnv rfl
    rw [this]
  · have := h.2.1 exampleReadyState exampleOptions "" exampleRunEnv
      ⟨true, some 7⟩ rfl rfl
    rw [this]
  · have := h.2.2.1 exampleReadyState exampleOptions
      "https://example.com/profile" exampleRunEnv ⟨true, some 7⟩ rfl
      (by decide) (by decide)
    rw [this]
  · exact (h.2.2.2 exampleOptions exampleUrl exampleRunEnv (some 7)
      (by decide) (by decide)).1
